import Mathlib

/-! RISC-V GDB server: the GDBSIM back-end and the server entry point.

A shallow embedding of `src/targets/gdbsim/GdbSimImpl.cpp`, of
`src/server/main.cpp` and of `src/targets/ri5cy/Ri5cy.cpp`.

* The instruction simulator behind `gdbsim_desc` is an external library.  It is
  taken as a record of functions over an arbitrary simulator state `σ`
  (`SimLib σ`); every result below holds for every such library.
* A call to `abort ()` ends the process: a function that can reach one returns
  an `Outcome`, whose `aborted` case carries no value.
* Machine integers are `Nat`/`Int` reduced explicitly to the width of the C++
  type that holds them.
* Diagnostic text written to `std::cerr`/`std::cout` is not part of the model.
-/

namespace RiscvGdbServer

/-! ## Types declared in headers -/

/-- Result of a call that may end the process through `abort ()`:
`returned v` when control comes back to the caller with `v`, `aborted` when the
process is terminated inside the call. -/
inductive Outcome (α : Type) where
  | returned (value : α)
  | aborted
  deriving DecidableEq, Repr

/-- Modelled from the spec: `ITarget.h` (which declares `ITarget::ResumeRes`) is
not among the sources.  The enumeration holds exactly the enumerators the source
files name: `SUCCESS`, `FAILURE`, `INTERRUPTED`, `TIMEOUT`, `SYSCALL`,
`STEPPED`. -/
inductive ResumeRes where
  | SUCCESS
  | FAILURE
  | INTERRUPTED
  | TIMEOUT
  | SYSCALL
  | STEPPED
  deriving DecidableEq, Repr

/-- Modelled from the spec: `ITarget.h` (which declares `ITarget::ResumeType`)
is not among the sources.  `STEP` and `CONTINUE` are the enumerators the source
names; `other v` stands for any further value of the enumeration, which
`GdbSimImpl::resume` sends to its `default:` label. -/
inductive ResumeType where
  | STEP
  | CONTINUE
  | other (v : Int)
  deriving DecidableEq, Repr

/-- Modelled from the spec: `ITarget.h` (which declares `ITarget::ResetType`) is
not among the sources.  `COLD` is the enumerator the source names, `WARM` the
other kind of reset its comments speak of. -/
inductive ResetType where
  | COLD
  | WARM
  deriving DecidableEq, Repr

/-- Modelled from the spec: `ITarget.h` (which declares `ITarget::MatchType`) is
not among the sources; a match type is carried as its integer value. -/
abbrev MatchType := Int

/-- Modelled from the spec: the stop reasons of the specification's target
interface, "`StopReason ∈ {stepped, swbreak, hwbreak, watch(addr), timeout,
interrupted, syscall(request), exited(code), signalled(signo), failure}`". -/
inductive StopReason where
  | stepped
  | swbreak
  | hwbreak
  | watch (addr : Nat)
  | timeout
  | interrupted
  | syscall (request : Nat)
  | exited (code : Int)
  | signalled (signo : Int)
  | failure
  deriving DecidableEq, Repr

/-- Whether an enumerator of `ResumeRes` is the stop reason `r` of the
specification's vocabulary: the two are read by name (`STEPPED` is `stepped`,
`INTERRUPTED` is `interrupted`, `TIMEOUT` is `timeout`, `SYSCALL` is
`syscall (_)`, `FAILURE` is `failure`).  `swbreak`, `hwbreak`, `watch`,
`exited` and `signalled` have no enumerator of their name, and `SUCCESS` names
no stop reason. -/
def ResumeRes.reports : ResumeRes → StopReason → Bool
  | .STEPPED, .stepped => true
  | .INTERRUPTED, .interrupted => true
  | .TIMEOUT, .timeout => true
  | .SYSCALL, .syscall _ => true
  | .FAILURE, .failure => true
  | _, _ => false

/-- The `enum sim_stop` of the simulator library's `gdb/remote-sim.h`. -/
inductive sim_stop where
  | sim_running
  | sim_polling
  | sim_exited
  | sim_stopped
  | sim_signalled
  deriving DecidableEq, Repr

/-- Constants of the build and of the simulator library's headers
(`gdb/sim-riscv.h`, `gdb/signals.h`), none of which is among the sources. -/
structure Target where
  /-- The value of `sizeof (uint_reg_t)`: 4 on a 32-bit build, 8 on a 64-bit one. -/
  regBytes : Nat
  /-- The width in bits of `std::size_t` on the host. -/
  sizeBits : Nat
  /-- The register number `SIM_RISCV_PC_REGNUM`. -/
  SIM_RISCV_PC_REGNUM : Int
  /-- The signal number `GDB_SIGNAL_TRAP`. -/
  GDB_SIGNAL_TRAP : Int

/-- The simulator library entry points `GdbSimImpl` calls, over the simulator
state `σ` reached through `gdbsim_desc`.  A buffer handed to the library is
returned as the unsigned integer its bytes hold, in host byte order, once the
call is over; where the library writes fewer bytes than the buffer has, the
bytes it leaves alone are part of what the function decides. -/
structure SimLib (σ : Type) where
  /-- The call `sim_fetch_register (sd, regno, buf, length)`: the `int` returned
  and the buffer afterwards. -/
  sim_fetch_register : σ → Int → Nat → Int × Nat × σ
  /-- The call `sim_store_register (sd, regno, buf, length)` with the value held
  by `buf`: the `int` returned. -/
  sim_store_register : σ → Int → Nat → Nat → Int × σ
  /-- The call `sim_read (sd, addr, buffer, size)`: the `int` returned and the
  buffer afterwards. -/
  sim_read : σ → Nat → Nat → Int × Nat × σ
  /-- The call `sim_write (sd, addr, buffer, size)` with the value held by
  `buffer`: the `int` returned. -/
  sim_write : σ → Nat → Nat → Nat → Int × σ
  /-- The call `sim_resume (sd, step, siggnal)`. -/
  sim_resume : σ → Int → Int → σ
  /-- The call `sim_stop_reason (sd, &reason, &sigrc)`: the two values stored. -/
  sim_stop_reason : σ → sim_stop × Int × σ

/-- The `SIM_OPEN_KIND` of the simulator library's `gdb/remote-sim.h`. -/
inductive SIM_OPEN_KIND where
  | SIM_OPEN_STANDALONE
  | SIM_OPEN_DEBUG
  deriving DecidableEq, Repr

/-- The `SIM_RC` of the simulator library's `gdb/remote-sim.h`. -/
inductive SIM_RC where
  | SIM_RC_FAIL
  | SIM_RC_OK
  deriving DecidableEq, Repr

/-- One call into the simulator library, or through its callback table, as
recorded in the call log. -/
inductive SimCall where
  | fetch_register (regno : Int) (length : Nat)
  | store_register (regno : Int) (value : Nat) (length : Nat)
  | read (addr : Nat) (size : Nat)
  | write (addr : Nat) (value : Nat) (size : Nat)
  | resume (step : Int) (siggnal : Int)
  | stop_reason
  | callback_shutdown
  | callback_init
  | sim_open (kind : SIM_OPEN_KIND) (argv : List String)
  | sim_create_inferior (argv : List String)
  deriving DecidableEq, Repr

/-- Whether a logged call is a `sim_resume`. -/
def SimCall.isResume : SimCall → Bool
  | .resume _ _ => true
  | _ => false

/-- Number of `sim_resume` calls in a call log. -/
def resumeCount (calls : List SimCall) : Nat :=
  (calls.filter SimCall.isResume).length

/-- Modelled from the spec: `GdbServer.h` is not among the sources.  The one
thing kept of the server a target is associated with is whether the engine has
an outstanding cancellation request ("async interrupt from the engine"). -/
structure GdbServer where
  stopRequested : Bool
  deriving DecidableEq, Repr

/-- The state of a `GdbSimImpl` object: its members `mHaveReset` and `mServer`,
the simulator state behind `gdbsim_desc`, and the log of the calls made into
the simulator library so far (oldest first). -/
structure GdbSimImpl (σ : Type) where
  mHaveReset : Bool
  mServer : Option GdbServer
  gdbsim_desc : σ
  calls : List SimCall

/-! ## `GdbSimImpl`: register and memory access -/

/-- The conversion of an `int` to `std::size_t`. -/
def toSizeT (T : Target) (v : Int) : Nat :=
  (v % 2 ^ T.sizeBits).toNat

/-- `GdbSimImpl::readRegister (reg, value)`: the returned size and the value
left in `value`. -/
def readRegister {σ : Type} (T : Target) (sim : SimLib σ) (reg : Int)
    (self : GdbSimImpl σ) : (Nat × Nat) × GdbSimImpl σ :=
  match sim.sim_fetch_register self.gdbsim_desc reg T.regBytes with
  | (res, buf, sd) =>
    let self1 : GdbSimImpl σ :=
      { self with gdbsim_desc := sd
                  calls := self.calls ++ [SimCall.fetch_register reg T.regBytes] }
    let reg_size := toSizeT T res
    if reg_size ≠ T.regBytes then ((reg_size, 0), self1)
    else ((reg_size, buf % 2 ^ (8 * T.regBytes)), self1)

/-- `GdbSimImpl::writeRegister (reg, value)`: the returned size. -/
def writeRegister {σ : Type} (T : Target) (sim : SimLib σ) (reg : Int) (value : Nat)
    (self : GdbSimImpl σ) : Nat × GdbSimImpl σ :=
  match sim.sim_store_register self.gdbsim_desc reg value T.regBytes with
  | (_res, sd) =>
    (T.regBytes,
      { self with gdbsim_desc := sd
                  calls := self.calls ++ [SimCall.store_register reg value T.regBytes] })

/-- `GdbSimImpl::read (addr, buffer, size)`: the returned count and the buffer
afterwards.  The parameter `addr` is a `uint32_t`. -/
def read {σ : Type} (T : Target) (sim : SimLib σ) (addr : Nat) (size : Nat)
    (self : GdbSimImpl σ) : (Nat × Nat) × GdbSimImpl σ :=
  let addr32 := addr % 2 ^ 32
  match sim.sim_read self.gdbsim_desc addr32 size with
  | (ans, buf, sd) =>
    ((toSizeT T ans, buf % 2 ^ (8 * size)),
      { self with gdbsim_desc := sd
                  calls := self.calls ++ [SimCall.read addr32 size] })

/-- `GdbSimImpl::write (addr, buffer, size)` with the value held by `buffer`:
the returned count.  The parameter `addr` is a `uint32_t`. -/
def write {σ : Type} (T : Target) (sim : SimLib σ) (addr : Nat) (value : Nat) (size : Nat)
    (self : GdbSimImpl σ) : Nat × GdbSimImpl σ :=
  let addr32 := addr % 2 ^ 32
  match sim.sim_write self.gdbsim_desc addr32 value size with
  | (res, sd) =>
    (toSizeT T res,
      { self with gdbsim_desc := sd
                  calls := self.calls ++ [SimCall.write addr32 value size] })

/-- `GdbSimImpl::gdbServer (server)`. -/
def gdbServer {σ : Type} (server : Option GdbServer) (self : GdbSimImpl σ) : GdbSimImpl σ :=
  { self with mServer := server }

/-! ## `GdbSimImpl`: single step -/

/-- The opcode `ECALL`. -/
def ECALL : Nat := 0x00000073

/-- The opcode `EBREAK`. -/
def EBREAK : Nat := 0x00100073

/-- The opcode `C.EBREAK`. -/
def C_EBREAK : Nat := 0x9002

/-- The two calls `sim_resume (gdbsim_desc, 1, 0)` and
`sim_stop_reason (gdbsim_desc, &stop_reason, &signo)` of `doOneStep`. -/
def resumeAndStop {σ : Type} (sim : SimLib σ) (self : GdbSimImpl σ) :
    (sim_stop × Int) × GdbSimImpl σ :=
  match sim.sim_stop_reason (sim.sim_resume self.gdbsim_desc 1 0) with
  | (stop_reason, signo, sd) =>
    ((stop_reason, signo),
      { self with gdbsim_desc := sd
                  calls := self.calls ++ [SimCall.resume 1 0, SimCall.stop_reason] })

/-- `GdbSimImpl::doOneStep (timeout)`; the timeout is not used by the body. -/
def doOneStep {σ : Type} (T : Target) (sim : SimLib σ) (self : GdbSimImpl σ) :
    Outcome ResumeRes × GdbSimImpl σ :=
  match readRegister T sim T.SIM_RISCV_PC_REGNUM self with
  | ((_, stepAddr), s1) =>
    match read T sim stepAddr 4 s1 with
    | ((_, insn), s2) =>
      if insn = ECALL then
        match writeRegister T sim T.SIM_RISCV_PC_REGNUM
            ((stepAddr + 4) % 2 ^ (8 * T.regBytes)) s2 with
        | (_, s3) => (Outcome.returned ResumeRes.SYSCALL, s3)
      else
        match resumeAndStop sim s2 with
        | ((sim_stop.sim_stopped, signo), s4) =>
          if signo = T.GDB_SIGNAL_TRAP then
            match read T sim stepAddr 2 s4 with
            | ((_, cinsn), s5) =>
              if cinsn = C_EBREAK then (Outcome.returned ResumeRes.INTERRUPTED, s5)
              else
                match read T sim stepAddr 4 s5 with
                | ((_, insn2), s6) =>
                  if insn2 = EBREAK then (Outcome.returned ResumeRes.INTERRUPTED, s6)
                  else (Outcome.returned ResumeRes.STEPPED, s6)
          else (Outcome.returned ResumeRes.INTERRUPTED, s4)
        | ((sim_stop.sim_signalled, _), s4) => (Outcome.aborted, s4)
        | ((sim_stop.sim_exited, _), s4) => (Outcome.returned ResumeRes.SYSCALL, s4)
        | ((sim_stop.sim_running, _), s4) => (Outcome.aborted, s4)
        | ((sim_stop.sim_polling, _), s4) => (Outcome.aborted, s4)

/-! ## `GdbSimImpl`: run to break, resume -/

/-- The operations of `std::chrono` that `GdbSimImpl` uses, over the values `D`
of `std::chrono::duration <double>` and the time points `P` of the system
clock.  Nothing is assumed of them: what is proved holds for the arithmetic of
`double` as for any other. -/
structure Chrono (D P : Type) where
  /-- The value `std::chrono::duration <double>::zero ()`. -/
  zero : D
  /-- The operator `!=` on two durations. -/
  ne : D → D → Bool
  /-- The operator `+` on a time point and a duration. -/
  add : P → D → P
  /-- The operator `>` on two time points. -/
  gt : P → P → Bool
  /-- A default-constructed time point. -/
  epoch : P

/-- The `do ... while (true)` loop of `GdbSimImpl::doRunToBreak`.  The clock is
`system_clock::now ()`: `clock k` is what its call number `k` returns, and
`reads` counts the calls made so far.  `fuel` bounds the number of iterations
that are followed: the result is `none` when the loop is still running after
`fuel` of them. -/
def doRunToBreakLoop {σ D P : Type} (T : Target) (sim : SimLib σ) (C : Chrono D P) (clock : Nat → P)
    (haveTimeout : Bool) (timeout_end : P) :
    Nat → Nat → GdbSimImpl σ → Option (Outcome ResumeRes × GdbSimImpl σ)
  | 0, _, _ => none
  | fuel + 1, reads, self =>
    match doOneStep T sim self with
    | (Outcome.aborted, s1) => some (Outcome.aborted, s1)
    | (Outcome.returned res, s1) =>
      if res ≠ ResumeRes.STEPPED then some (Outcome.returned res, s1)
      else if haveTimeout then
        if C.gt (clock reads) timeout_end = true then some (Outcome.returned ResumeRes.TIMEOUT, s1)
        else doRunToBreakLoop T sim C clock haveTimeout timeout_end fuel (reads + 1) s1
      else doRunToBreakLoop T sim C clock haveTimeout timeout_end fuel reads s1

/-- `GdbSimImpl::doRunToBreak (timeout)`. -/
def doRunToBreak {σ D P : Type} (T : Target) (sim : SimLib σ) (C : Chrono D P) (clock : Nat → P)
    (fuel : Nat) (timeout : D) (self : GdbSimImpl σ) :
    Option (Outcome ResumeRes × GdbSimImpl σ) :=
  if C.ne C.zero timeout = true then
    doRunToBreakLoop T sim C clock true (C.add (clock 0) timeout) fuel 1 self
  else
    doRunToBreakLoop T sim C clock false C.epoch fuel 0 self

/-- `GdbSimImpl::resume (step, timeout)`, the overload with a timeout. -/
def resumeWithTimeout {σ D P : Type} (T : Target) (sim : SimLib σ)
    (C : Chrono D P) (clock : Nat → P)
    (fuel : Nat) (step : ResumeType) (timeout : D) (self : GdbSimImpl σ) :
    Option (Outcome ResumeRes × GdbSimImpl σ) :=
  match step with
  | ResumeType.STEP => some (doOneStep T sim self)
  | ResumeType.CONTINUE => doRunToBreak T sim C clock fuel timeout self
  | ResumeType.other _ => some (Outcome.aborted, self)

/-- `GdbSimImpl::resume (step)`, the overload with no timeout. -/
def resume {σ D P : Type} (T : Target) (sim : SimLib σ) (C : Chrono D P) (clock : Nat → P)
    (fuel : Nat) (step : ResumeType) (self : GdbSimImpl σ) :
    Option (Outcome ResumeRes × GdbSimImpl σ) :=
  resumeWithTimeout T sim C clock fuel step C.zero self

/-- The object after `k` calls of `doOneStep` in a row. -/
def afterSteps {σ : Type} (T : Target) (sim : SimLib σ) : Nat → GdbSimImpl σ → GdbSimImpl σ
  | 0, self => self
  | k + 1, self => afterSteps T sim k (doOneStep T sim self).2

/-- What call number `k` (counted from 0) of `doOneStep` returns when it is
called over and over on the same object. -/
def stepResult {σ : Type} (T : Target) (sim : SimLib σ) (k : Nat) (self : GdbSimImpl σ) :
    Outcome ResumeRes :=
  (doOneStep T sim (afterSteps T sim k self)).1

/-! ## `GdbSimImpl`: the operations that abort -/

/-- `GdbSimImpl::terminate ()`. -/
def terminate {σ : Type} (self : GdbSimImpl σ) : Outcome ResumeRes × GdbSimImpl σ :=
  (Outcome.aborted, self)

/-- `GdbSimImpl::getCycleCount ()`. -/
def getCycleCount {σ : Type} (self : GdbSimImpl σ) : Outcome Nat × GdbSimImpl σ :=
  (Outcome.aborted, self)

/-- `GdbSimImpl::getInstrCount ()`. -/
def getInstrCount {σ : Type} (self : GdbSimImpl σ) : Outcome Nat × GdbSimImpl σ :=
  (Outcome.aborted, self)

/-- `GdbSimImpl::insertMatchpoint (addr, matchType)`. -/
def insertMatchpoint {σ : Type} (_addr : Nat) (_matchType : MatchType)
    (self : GdbSimImpl σ) : Outcome Bool × GdbSimImpl σ :=
  (Outcome.aborted, self)

/-- `GdbSimImpl::removeMatchpoint (addr, matchType)`. -/
def removeMatchpoint {σ : Type} (_addr : Nat) (_matchType : MatchType)
    (self : GdbSimImpl σ) : Outcome Bool × GdbSimImpl σ :=
  (Outcome.aborted, self)

/-- `GdbSimImpl::command (cmd, stream)`; `stream` is the text the output stream
holds, returned as the call leaves it. -/
def command {σ : Type} (_cmd : String) (stream : String)
    (self : GdbSimImpl σ) : Outcome Bool × String × GdbSimImpl σ :=
  (Outcome.aborted, stream, self)

/-- `GdbSimImpl::timeStamp ()`. -/
def timeStamp {σ : Type} (self : GdbSimImpl σ) : Outcome Float × GdbSimImpl σ :=
  (Outcome.aborted, self)

/-! ## `GdbSimImpl`: reset and construction -/

/-- What `GdbSimImpl::reset` calls in the simulator library, over the simulator
state `σ` and the contents `κ` of a callback table (`host_callback`).  Every
call may change both the simulator state and the table it is handed. -/
structure ResetLib (σ κ : Type) where
  /-- The library's table `default_callback`. -/
  default_callback : κ
  /-- The call `gdb_callback.shutdown (&gdb_callback)`, through the function the
  table holds. -/
  shutdown : σ → κ → σ × κ
  /-- The call `gdb_callback.init (&gdb_callback)`, through the function the
  table holds. -/
  init : σ → κ → σ × κ
  /-- The call `sim_open (kind, &gdb_callback, NULL, argv)`; the simulator state
  returned is the one behind the descriptor the call returns. -/
  sim_open : σ → SIM_OPEN_KIND → κ → List String → σ × κ
  /-- The call `sim_create_inferior (sd, NULL, argv, NULL)` and the `SIM_RC` it
  returns. -/
  sim_create_inferior : σ → κ → List String → SIM_RC × σ × κ

/-- `GdbSimImpl::reset (type)`.  The member `gdb_callback`, which no other
operation touches, is passed beside the object and returned with it. -/
def reset {σ κ : Type} (lib : ResetLib σ κ) (_type : ResetType) (self : GdbSimImpl σ)
    (gdb_callback : κ) : Outcome ResumeRes × GdbSimImpl σ × κ :=
  let sim_argv := ["gdbsim"]
  let shut : σ × List SimCall :=
    if self.mHaveReset = true then
      ((lib.shutdown self.gdbsim_desc gdb_callback).1,
        self.calls ++ [SimCall.callback_shutdown])
    else (self.gdbsim_desc, self.calls)
  match lib.init shut.1 lib.default_callback with
  | (w2, cb2) =>
    match lib.sim_open w2 SIM_OPEN_KIND.SIM_OPEN_DEBUG cb2 sim_argv with
    | (w3, cb3) =>
      match lib.sim_create_inferior w3 cb3 sim_argv with
      | (rc, w4, cb4) =>
        let self1 : GdbSimImpl σ :=
          { mHaveReset := true
            mServer := self.mServer
            gdbsim_desc := w4
            calls := shut.2 ++ [SimCall.callback_init,
              SimCall.sim_open SIM_OPEN_KIND.SIM_OPEN_DEBUG sim_argv,
              SimCall.sim_create_inferior sim_argv] }
        if rc ≠ SIM_RC.SIM_RC_OK then (Outcome.aborted, self1, cb4)
        else (Outcome.returned ResumeRes.SUCCESS, self1, cb4)

/-- The constructor `GdbSimImpl::GdbSimImpl (flags)`: `mHaveReset` starts as
`false` and a cold reset is run.  The members the initialiser list leaves
alone start with whatever they hold: `mServer`, `gdb_callback`, and the
simulator state `sd` found before any descriptor exists. -/
def GdbSimImpl.new {σ κ : Type} (lib : ResetLib σ κ) (sd : σ)
    (mServer : Option GdbServer) (gdb_callback : κ) :
    Outcome ResumeRes × GdbSimImpl σ × κ :=
  reset lib ResetType.COLD
    { mHaveReset := false, mServer := mServer, gdbsim_desc := sd, calls := [] } gdb_callback

/-- The three steps every reset ends with, from the simulator state `w`: a fresh
copy of the default callback table is initialised, the simulator is opened in
debug mode with it, and the inferior is created.  The result is the `SIM_RC`
of the inferior creation, the simulator state and the table. -/
def freshStart {σ κ : Type} (lib : ResetLib σ κ) (w : σ) : SIM_RC × σ × κ :=
  lib.sim_create_inferior
    (lib.sim_open (lib.init w lib.default_callback).1 SIM_OPEN_KIND.SIM_OPEN_DEBUG
      (lib.init w lib.default_callback).2 ["gdbsim"]).1
    (lib.sim_open (lib.init w lib.default_callback).1 SIM_OPEN_KIND.SIM_OPEN_DEBUG
      (lib.init w lib.default_callback).2 ["gdbsim"]).2
    ["gdbsim"]

/-! ## A small simulator for concrete runs -/

/-- State of a small simulator: a program counter, a byte memory starting at
address 0 (bytes past its end read as 0), and the stop state it reports after
every `sim_resume`. -/
structure ToySim where
  pc : Nat
  mem : List Nat
  stop : sim_stop
  signo : Int
  deriving DecidableEq, Repr

/-- The `size` bytes of `mem` from `addr` on, as a little-endian number. -/
def ToySim.load (mem : List Nat) (addr : Nat) : Nat → Nat
  | 0 => 0
  | size + 1 => mem.getD addr 0 % 256 + 256 * ToySim.load mem (addr + 1) size

/-- The small simulator as a simulator library: register 32 is the program
counter, 4 bytes wide; every instruction is 4 bytes long and changes nothing
but the program counter. -/
def toySim : SimLib ToySim where
  sim_fetch_register := fun s regno _length =>
    if regno = 32 then (4, s.pc, s) else (0, 0, s)
  sim_store_register := fun s regno value _length =>
    if regno = 32 then (4, { s with pc := value }) else (-1, s)
  sim_read := fun s addr size => (size, ToySim.load s.mem addr size, s)
  sim_write := fun s _addr _value _size => (0, s)
  sim_resume := fun s _step _siggnal => { s with pc := (s.pc + 4) % 2 ^ 32 }
  sim_stop_reason := fun s => (s.stop, s.signo, s)

/-- A 32-bit build on a host with a 64-bit `std::size_t`, with the program
counter as register 32 and `GDB_SIGNAL_TRAP` as signal 5. -/
def rv32 : Target where
  regBytes := 4
  sizeBits := 64
  SIM_RISCV_PC_REGNUM := 32
  GDB_SIGNAL_TRAP := 5

/-- Durations and time points counted in whole ticks of a clock. -/
def ticks : Chrono Int Int where
  zero := 0
  ne := fun a b => decide (a ≠ b)
  add := fun p d => p + d
  gt := fun a b => decide (a > b)
  epoch := 0

/-- A freshly reset `GdbSimImpl` over the small simulator. -/
def toyTarget (pc : Nat) (mem : List Nat) (stop : sim_stop) (signo : Int)
    (server : Option GdbServer) : GdbSimImpl ToySim where
  mHaveReset := true
  mServer := server
  gdbsim_desc := { pc := pc, mem := mem, stop := stop, signo := signo }
  calls := []

/-- The reset entry points of the small simulator.  A callback table is a
number: 0 for the default table, 1 once initialised, 2 once shut down;
`sim_open` puts the program counter at 0 and `sim_create_inferior` returns
`rc`. -/
def toyReset (rc : SIM_RC) : ResetLib ToySim Nat where
  default_callback := 0
  shutdown := fun w _ => (w, 2)
  init := fun w _ => (w, 1)
  sim_open := fun w _ cb _ => ({ w with pc := 0 }, cb)
  sim_create_inferior := fun w cb _ => (rc, w, cb)

/-! ## `main.cpp`: creation of the target -/

/-- The macros of `config.h` that decide which back-ends are built. -/
structure BuildConfig where
  BUILD_GDBSIM_MODEL : Bool
  BUILD_PICORV32_MODEL : Bool
  BUILD_RI5CY_MODEL : Bool
  deriving DecidableEq, Repr

/-- The object behind an `ITarget *`: the class `createCpu` instantiated. -/
inductive ITarget where
  | GdbSim
  | Picorv32
  | Ri5cy
  deriving DecidableEq, Repr

/-- The C library's `tolower` in the "C" locale (the program never sets
another): the letters `A` to `Z` go to `a` to `z`, every other character stays. -/
def tolower (c : Char) : Char := c.toLower

/-- The character NUL, which ends a C string. -/
def NUL : Char := Char.ofNat 0

/-- The characters of a `char *` argument: those before the first NUL. -/
def cstr (s : String) : List Char :=
  s.toList.takeWhile (fun c => c != NUL)

/-- The C library's `strcasecmp` on the characters of two C strings: zero when
the strings are equal once lowered, otherwise the difference of the first two
lowered characters that differ (the end of a string counting as 0). -/
def strcasecmp : List Char → List Char → Int
  | [], [] => 0
  | [], b :: _ => 0 - ((tolower b).toNat : Int)
  | a :: _, [] => ((tolower a).toNat : Int)
  | a :: as, b :: bs =>
    if tolower a = tolower b then strcasecmp as bs
    else ((tolower a).toNat : Int) - ((tolower b).toNat : Int)

/-- `createCpu (name, traceFlags)`: the new target, or `none` for `nullptr`.  A
branch under `#ifdef BUILD_..._MODEL` exists when the macro is defined; a `new`
expression yields the object it constructs. -/
def createCpu (build : BuildConfig) (name : String) : Option ITarget :=
  if build.BUILD_GDBSIM_MODEL = true ∧ 0 = strcasecmp (cstr "GDBSIM") (cstr name) then
    some ITarget.GdbSim
  else if build.BUILD_PICORV32_MODEL = true ∧ 0 = strcasecmp (cstr "PicoRV32") (cstr name) then
    some ITarget.Picorv32
  else if build.BUILD_RI5CY_MODEL = true ∧ 0 = strcasecmp (cstr "RI5CY") (cstr name) then
    some ITarget.Ri5cy
  else
    none

/-- The names `createCpu` compares a core name with, in a given build. -/
def builtNames (build : BuildConfig) : List String :=
  (if build.BUILD_GDBSIM_MODEL then ["GDBSIM"] else []) ++
  (if build.BUILD_PICORV32_MODEL then ["PicoRV32"] else []) ++
  (if build.BUILD_RI5CY_MODEL then ["RI5CY"] else [])

/-- Two C strings are case variants of each other: they are the same once
every letter `A` to `Z` is replaced by its lower-case letter. -/
def caseVariant (a b : String) : Prop :=
  (cstr a).map Char.toLower = (cstr b).map Char.toLower

instance (a b : String) : Decidable (caseVariant a b) :=
  inferInstanceAs (Decidable ((cstr a).map Char.toLower = (cstr b).map Char.toLower))

/-! ## `main.cpp`: `main` -/

/-- The value `EXIT_SUCCESS`. -/
def EXIT_SUCCESS : Int := 0

/-- The value `EXIT_FAILURE`. -/
def EXIT_FAILURE : Int := 1

/-- `GdbServer::KillBehaviour`, with the two enumerators `main` names. -/
inductive KillBehaviour where
  | EXIT_ON_KILL
  | RESET_ON_KILL
  deriving DecidableEq, Repr

/-- The connection object `main` constructs. -/
inductive Connection where
  | StreamConnection
  | RspConnection (port : Int)
  deriving DecidableEq, Repr

/-- One return of `getopt_long (argc, argv, "c:hqt:sv", longOptions, ...)` other
than -1: the character returned and the text `optarg` points to.  The C
library's option scanner is not part of the program: `main` is given the list
of its returns up to the -1, and the arguments it leaves from `optind` on. -/
abbrev GetoptReturn := Char × String

/-- The locals of `main` that the option loop sets. -/
structure MainLocals where
  coreName : Option String
  from_stdin : Bool
  /-- The names given to `traceFlags->flag (name, true)`, oldest first. -/
  traceFlags : List String
  deriving DecidableEq, Repr

/-- Things outside `main.cpp` that `main` depends on. -/
structure MainEnv where
  build : BuildConfig
  /-- The call `TraceFlags::isFlag (name)`. -/
  isFlag : String → Bool
  /-- The C library's `atoi`. -/
  atoi : String → Int
  /-- The value `gdbServer->rspServer ()` returns. -/
  rspServer : Connection → ITarget → List String → KillBehaviour → Int

/-- The `while (true)` option loop of `main`: `Except.error code` when a case of
the `switch` returns `code` from `main`, `Except.ok` with the locals when
`getopt_long` returns -1. -/
def optionLoop (isFlag : String → Bool) : List GetoptReturn → MainLocals → Except Int MainLocals
  | [], l => Except.ok l
  | (c, optarg) :: rest, l =>
    if c = 'c' then optionLoop isFlag rest { l with coreName := some optarg }
    else if c = 'h' then Except.error EXIT_SUCCESS
    else if c = 'q' then
      optionLoop isFlag rest { l with traceFlags := l.traceFlags ++ ["silent"] }
    else if c = 't' then
      if ¬ isFlag optarg then Except.error EXIT_FAILURE
      else optionLoop isFlag rest { l with traceFlags := l.traceFlags ++ [optarg] }
    else if c = 's' then optionLoop isFlag rest { l with from_stdin := true }
    else if c = '?' ∨ c = ':' then Except.error EXIT_FAILURE
    else if c = 'v' then Except.error EXIT_SUCCESS
    else Except.error EXIT_FAILURE

/-- What `main` constructs, calls and frees once its arguments are accepted. -/
inductive MainEvent where
  | newCpu (cpu : ITarget)
  | newStreamConnection
  | newRspConnection (port : Int)
  | newGdbServer (conn : Connection) (cpu : ITarget) (killBehaviour : KillBehaviour)
  | cpuGdbServer
  | rspServer
  | deleteConn
  | deleteGdbServer
  | deleteGlobalCpu
  | deleteTraceFlags
  | freeCoreName
  deriving DecidableEq, Repr

/-- The outcome of `main`: the value returned, what it constructed, called and
freed on the way (oldest first), and the value the global `globalCpu` holds
when it returns. -/
structure MainResult where
  exitCode : Int
  events : List MainEvent
  globalCpu : Option ITarget
  deriving DecidableEq, Repr

/-- `main (argc, argv)`, given the returns of `getopt_long` and the arguments
`argv[optind]` to `argv[argc - 1]` it leaves. -/
def main (env : MainEnv) (opts : List GetoptReturn) (positional : List String) : MainResult :=
  match optionLoop env.isFlag opts { coreName := none, from_stdin := false, traceFlags := [] } with
  | Except.error code => { exitCode := code, events := [], globalCpu := none }
  | Except.ok l =>
    if (positional.length ≠ 1 ∧ ¬ l.from_stdin = true) ∨ l.coreName = none then
      { exitCode := EXIT_FAILURE, events := [], globalCpu := none }
    else
      match l.coreName with
      | none => { exitCode := EXIT_FAILURE, events := [], globalCpu := none }
      | some coreName =>
        match createCpu env.build coreName with
        | none => { exitCode := EXIT_FAILURE, events := [], globalCpu := none }
        | some cpu =>
          if l.from_stdin = true then
            { exitCode := env.rspServer Connection.StreamConnection cpu l.traceFlags
                KillBehaviour.EXIT_ON_KILL
              events := [MainEvent.newCpu cpu, MainEvent.newStreamConnection,
                MainEvent.newGdbServer Connection.StreamConnection cpu
                  KillBehaviour.EXIT_ON_KILL,
                MainEvent.cpuGdbServer, MainEvent.rspServer, MainEvent.deleteConn,
                MainEvent.deleteGdbServer, MainEvent.deleteGlobalCpu,
                MainEvent.deleteTraceFlags, MainEvent.freeCoreName]
              globalCpu := some cpu }
          else
            let port := env.atoi (positional.headD "")
            { exitCode := env.rspServer (Connection.RspConnection port) cpu l.traceFlags
                KillBehaviour.RESET_ON_KILL
              events := [MainEvent.newCpu cpu, MainEvent.newRspConnection port,
                MainEvent.newGdbServer (Connection.RspConnection port) cpu
                  KillBehaviour.RESET_ON_KILL,
                MainEvent.cpuGdbServer, MainEvent.rspServer, MainEvent.deleteConn,
                MainEvent.deleteGdbServer, MainEvent.deleteGlobalCpu,
                MainEvent.deleteTraceFlags, MainEvent.freeCoreName]
              globalCpu := some cpu }

/-- `sc_time_stamp ()`, given the value of the global `globalCpu` and the
virtual `timeStamp ()` of the targets `τ`; the target is returned as the call
leaves it. -/
def sc_time_stamp {τ : Type} (timeStamp : τ → Outcome Float × τ) (globalCpu : Option τ) :
    Outcome Float × Option τ :=
  match globalCpu with
  | some cpu =>
    match timeStamp cpu with
    | (t, cpu1) => (t, some cpu1)
  | none => (Outcome.returned 0.0, none)

/-- The value of the last `--core` (`-c`) option among the returns of
`getopt_long`, or `none` when there is none. -/
def coreNameOf (opts : List GetoptReturn) : Option String :=
  opts.foldl (fun acc o => if o.1 = 'c' then some o.2 else acc) none

/-- Whether `--stdin` (`-s`) is among the returns of `getopt_long`. -/
def stdinSelected (opts : List GetoptReturn) : Bool :=
  opts.any (fun o => o.1 == 's')

/-- Whether a return of `getopt_long` is `--help` (`-h`) or `--version` (`-v`). -/
def helpOrVersion (o : GetoptReturn) : Bool :=
  o.1 == 'h' || o.1 == 'v'

/-- The number written by the decimal digits a text starts with, after `acc`. -/
def decimal : List Char → Nat → Nat
  | [], acc => acc
  | c :: cs, acc =>
    if 48 ≤ c.toNat ∧ c.toNat ≤ 57 then decimal cs (acc * 10 + (c.toNat - 48)) else acc

/-- A build with the GDBSIM back-end only, in which the trace flags are `rsp`,
`conn`, `break`, `vcd` and `silent`, `atoi` reads unsigned decimal numbers, and the
server returns `EXIT_SUCCESS`. -/
def gdbsimEnv : MainEnv where
  build := { BUILD_GDBSIM_MODEL := true, BUILD_PICORV32_MODEL := false,
             BUILD_RI5CY_MODEL := false }
  isFlag := fun name => decide (name ∈ ["rsp", "conn", "break", "vcd", "silent"])
  atoi := fun text => (decimal text.toList 0 : Nat)
  rspServer := fun _ _ _ _ => EXIT_SUCCESS

/-! ## `Ri5cy.cpp`: the public wrapper -/

/-- The operations of the private implementation class `Ri5cyImpl` that the
wrapper calls, over the state `ι` of an implementation object and the values
`D` of `std::chrono::duration <double>`.  The class itself is not among the
sources: every operation is a parameter, free to change the object, to return
any value or to abort.  An argument passed by reference or through a pointer to
be filled (`value`, `buffer`, `stream`) is given as it is before the call and
returned, with the result, as it is after it. -/
structure Ri5cyImpl (ι D : Type) where
  resume : ResumeType → ι → Outcome ResumeRes × ι
  resumeWithTimeout : ResumeType → D → ι → Outcome ResumeRes × ι
  terminate : ι → Outcome ResumeRes × ι
  reset : ResetType → ι → Outcome ResumeRes × ι
  getCycleCount : ι → Outcome Nat × ι
  getInstrCount : ι → Outcome Nat × ι
  readRegister : Int → Nat → ι → Outcome (Nat × Nat) × ι
  writeRegister : Int → Nat → ι → Outcome Nat × ι
  read : Nat → Nat → Nat → ι → Outcome (Nat × Nat) × ι
  write : Nat → Nat → Nat → ι → Outcome Nat × ι
  insertMatchpoint : Nat → MatchType → ι → Outcome Bool × ι
  removeMatchpoint : Nat → MatchType → ι → Outcome Bool × ι
  command : String → String → ι → Outcome (Bool × String) × ι
  gdbServer : Option GdbServer → ι → Outcome Unit × ι
  timeStamp : ι → Outcome Float × ι

/-- The state of a `Ri5cy` object: the implementation object its one member
`mRi5cyImpl` points to. -/
structure Ri5cy (ι : Type) where
  mRi5cyImpl : ι

/-- `Ri5cy::resume (step)`. -/
def Ri5cy.resume {ι D : Type} (impl : Ri5cyImpl ι D) (step : ResumeType) (self : Ri5cy ι) :
    Outcome ResumeRes × Ri5cy ι :=
  match impl.resume step self.mRi5cyImpl with
  | (res, i) => (res, { mRi5cyImpl := i })

/-- `Ri5cy::resume (step, timeout)`. -/
def Ri5cy.resumeWithTimeout {ι D : Type} (impl : Ri5cyImpl ι D) (step : ResumeType)
    (timeout : D) (self : Ri5cy ι) : Outcome ResumeRes × Ri5cy ι :=
  match impl.resumeWithTimeout step timeout self.mRi5cyImpl with
  | (res, i) => (res, { mRi5cyImpl := i })

/-- `Ri5cy::terminate ()`. -/
def Ri5cy.terminate {ι D : Type} (impl : Ri5cyImpl ι D) (self : Ri5cy ι) :
    Outcome ResumeRes × Ri5cy ι :=
  match impl.terminate self.mRi5cyImpl with
  | (res, i) => (res, { mRi5cyImpl := i })

/-- `Ri5cy::reset (type)`. -/
def Ri5cy.reset {ι D : Type} (impl : Ri5cyImpl ι D) (type : ResetType) (self : Ri5cy ι) :
    Outcome ResumeRes × Ri5cy ι :=
  match impl.reset type self.mRi5cyImpl with
  | (res, i) => (res, { mRi5cyImpl := i })

/-- `Ri5cy::getCycleCount ()`. -/
def Ri5cy.getCycleCount {ι D : Type} (impl : Ri5cyImpl ι D) (self : Ri5cy ι) :
    Outcome Nat × Ri5cy ι :=
  match impl.getCycleCount self.mRi5cyImpl with
  | (res, i) => (res, { mRi5cyImpl := i })

/-- `Ri5cy::getInstrCount ()`. -/
def Ri5cy.getInstrCount {ι D : Type} (impl : Ri5cyImpl ι D) (self : Ri5cy ι) :
    Outcome Nat × Ri5cy ι :=
  match impl.getInstrCount self.mRi5cyImpl with
  | (res, i) => (res, { mRi5cyImpl := i })

/-- `Ri5cy::readRegister (reg, value)`: the returned size with `value` as the
call leaves it. -/
def Ri5cy.readRegister {ι D : Type} (impl : Ri5cyImpl ι D) (reg : Int) (value : Nat)
    (self : Ri5cy ι) : Outcome (Nat × Nat) × Ri5cy ι :=
  match impl.readRegister reg value self.mRi5cyImpl with
  | (res, i) => (res, { mRi5cyImpl := i })

/-- `Ri5cy::writeRegister (reg, value)`. -/
def Ri5cy.writeRegister {ι D : Type} (impl : Ri5cyImpl ι D) (reg : Int) (value : Nat)
    (self : Ri5cy ι) : Outcome Nat × Ri5cy ι :=
  match impl.writeRegister reg value self.mRi5cyImpl with
  | (res, i) => (res, { mRi5cyImpl := i })

/-- `Ri5cy::read (addr, buffer, size)`: the returned count with `buffer` as the
call leaves it. -/
def Ri5cy.read {ι D : Type} (impl : Ri5cyImpl ι D) (addr buffer size : Nat)
    (self : Ri5cy ι) : Outcome (Nat × Nat) × Ri5cy ι :=
  match impl.read addr buffer size self.mRi5cyImpl with
  | (res, i) => (res, { mRi5cyImpl := i })

/-- `Ri5cy::write (addr, buffer, size)`. -/
def Ri5cy.write {ι D : Type} (impl : Ri5cyImpl ι D) (addr buffer size : Nat)
    (self : Ri5cy ι) : Outcome Nat × Ri5cy ι :=
  match impl.write addr buffer size self.mRi5cyImpl with
  | (res, i) => (res, { mRi5cyImpl := i })

/-- `Ri5cy::insertMatchpoint (addr, matchType)`. -/
def Ri5cy.insertMatchpoint {ι D : Type} (impl : Ri5cyImpl ι D) (addr : Nat)
    (matchType : MatchType) (self : Ri5cy ι) : Outcome Bool × Ri5cy ι :=
  match impl.insertMatchpoint addr matchType self.mRi5cyImpl with
  | (res, i) => (res, { mRi5cyImpl := i })

/-- `Ri5cy::removeMatchpoint (addr, matchType)`. -/
def Ri5cy.removeMatchpoint {ι D : Type} (impl : Ri5cyImpl ι D) (addr : Nat)
    (matchType : MatchType) (self : Ri5cy ι) : Outcome Bool × Ri5cy ι :=
  match impl.removeMatchpoint addr matchType self.mRi5cyImpl with
  | (res, i) => (res, { mRi5cyImpl := i })

/-- `Ri5cy::command (cmd, stream)`: the returned flag with `stream` as the call
leaves it. -/
def Ri5cy.command {ι D : Type} (impl : Ri5cyImpl ι D) (cmd stream : String)
    (self : Ri5cy ι) : Outcome (Bool × String) × Ri5cy ι :=
  match impl.command cmd stream self.mRi5cyImpl with
  | (res, i) => (res, { mRi5cyImpl := i })

/-- `Ri5cy::gdbServer (server)`. -/
def Ri5cy.gdbServer {ι D : Type} (impl : Ri5cyImpl ι D) (server : Option GdbServer)
    (self : Ri5cy ι) : Outcome Unit × Ri5cy ι :=
  match impl.gdbServer server self.mRi5cyImpl with
  | (res, i) => (res, { mRi5cyImpl := i })

/-- `Ri5cy::timeStamp ()`. -/
def Ri5cy.timeStamp {ι D : Type} (impl : Ri5cyImpl ι D) (self : Ri5cy ι) :
    Outcome Float × Ri5cy ι :=
  match impl.timeStamp self.mRi5cyImpl with
  | (res, i) => (res, { mRi5cyImpl := i })

/-- One call of an operation of the implementation class, with its arguments. -/
inductive ImplCall where
  | resume (step : ResumeType)
  | resumeWithTimeout (step : ResumeType) (timeout : Int)
  | terminate
  | reset (type : ResetType)
  | getCycleCount
  | getInstrCount
  | readRegister (reg : Int) (value : Nat)
  | writeRegister (reg : Int) (value : Nat)
  | read (addr buffer size : Nat)
  | write (addr buffer size : Nat)
  | insertMatchpoint (addr : Nat) (matchType : MatchType)
  | removeMatchpoint (addr : Nat) (matchType : MatchType)
  | command (cmd stream : String)
  | gdbServer (server : Option GdbServer)
  | timeStamp
  deriving DecidableEq, Repr

/-- An implementation for concrete runs whose state is the list of the calls it
has received, oldest first: every operation adds its call to the list and
returns a fixed value (`timeStamp` aborts). -/
def recorder : Ri5cyImpl (List ImplCall) Int where
  resume := fun step i => (Outcome.returned ResumeRes.STEPPED, i ++ [ImplCall.resume step])
  resumeWithTimeout := fun step timeout i =>
    (Outcome.returned ResumeRes.TIMEOUT, i ++ [ImplCall.resumeWithTimeout step timeout])
  terminate := fun i => (Outcome.returned ResumeRes.FAILURE, i ++ [ImplCall.terminate])
  reset := fun type i => (Outcome.returned ResumeRes.SUCCESS, i ++ [ImplCall.reset type])
  getCycleCount := fun i => (Outcome.returned 11, i ++ [ImplCall.getCycleCount])
  getInstrCount := fun i => (Outcome.returned 7, i ++ [ImplCall.getInstrCount])
  readRegister := fun reg value i =>
    (Outcome.returned (4, value + 1), i ++ [ImplCall.readRegister reg value])
  writeRegister := fun reg value i =>
    (Outcome.returned 4, i ++ [ImplCall.writeRegister reg value])
  read := fun addr buffer size i =>
    (Outcome.returned (size, buffer + 1), i ++ [ImplCall.read addr buffer size])
  write := fun addr buffer size i =>
    (Outcome.returned size, i ++ [ImplCall.write addr buffer size])
  insertMatchpoint := fun addr matchType i =>
    (Outcome.returned true, i ++ [ImplCall.insertMatchpoint addr matchType])
  removeMatchpoint := fun addr matchType i =>
    (Outcome.returned false, i ++ [ImplCall.removeMatchpoint addr matchType])
  command := fun cmd stream i =>
    (Outcome.returned (true, stream ++ "ok"), i ++ [ImplCall.command cmd stream])
  gdbServer := fun server i => (Outcome.returned (), i ++ [ImplCall.gdbServer server])
  timeStamp := fun i => (Outcome.aborted, i ++ [ImplCall.timeStamp])

/-! ## Lemmas on the call log -/

theorem readRegister_calls {σ : Type} (T : Target) (sim : SimLib σ) (reg : Int)
    (self : GdbSimImpl σ) :
    (readRegister T sim reg self).2.calls
      = self.calls ++ [SimCall.fetch_register reg T.regBytes] := by
  unfold readRegister
  dsimp only
  split <;> rfl

theorem read_calls {σ : Type} (T : Target) (sim : SimLib σ) (addr size : Nat)
    (self : GdbSimImpl σ) :
    (read T sim addr size self).2.calls = self.calls ++ [SimCall.read (addr % 2 ^ 32) size] := by
  unfold read
  rfl

theorem writeRegister_calls {σ : Type} (T : Target) (sim : SimLib σ) (reg : Int)
    (value : Nat) (self : GdbSimImpl σ) :
    (writeRegister T sim reg value self).2.calls
      = self.calls ++ [SimCall.store_register reg value T.regBytes] := by
  unfold writeRegister
  rfl

theorem resumeCount_append (xs ys : List SimCall) :
    resumeCount (xs ++ ys) = resumeCount xs + resumeCount ys := by
  simp [resumeCount]

/-! ## Single step -/

/-- C1: when the 4-byte word `doOneStep` reads at the program counter it has
fetched is `ECALL` (0x00000073), it returns `SYSCALL`, its last act is the write
of the program counter plus 4 (in the width of a register) to the PC register,
and the simulator library is called three times only (fetch of the PC, read of
the word, store of the PC): `sim_resume` is not called. -/
theorem doOneStep_ecall {σ : Type} (T : Target) (sim : SimLib σ) (self : GdbSimImpl σ)
    (n pc r : Nat) (s1 s2 : GdbSimImpl σ)
    (hpc : readRegister T sim T.SIM_RISCV_PC_REGNUM self = ((n, pc), s1))
    (hinsn : read T sim pc 4 s1 = ((r, ECALL), s2)) :
    (doOneStep T sim self).1 = Outcome.returned ResumeRes.SYSCALL ∧
    (doOneStep T sim self).2
      = (writeRegister T sim T.SIM_RISCV_PC_REGNUM ((pc + 4) % 2 ^ (8 * T.regBytes)) s2).2 ∧
    (doOneStep T sim self).2.calls
      = self.calls ++ [SimCall.fetch_register T.SIM_RISCV_PC_REGNUM T.regBytes,
          SimCall.read (pc % 2 ^ 32) 4,
          SimCall.store_register T.SIM_RISCV_PC_REGNUM
            ((pc + 4) % 2 ^ (8 * T.regBytes)) T.regBytes] ∧
    resumeCount (doOneStep T sim self).2.calls = resumeCount self.calls := by
  have h1 : s1.calls = self.calls ++ [SimCall.fetch_register T.SIM_RISCV_PC_REGNUM T.regBytes] := by
    have := readRegister_calls T sim T.SIM_RISCV_PC_REGNUM self
    rw [hpc] at this
    exact this
  have h2 : s2.calls = s1.calls ++ [SimCall.read (pc % 2 ^ 32) 4] := by
    have := read_calls T sim pc 4 s1
    rw [hinsn] at this
    exact this
  have hstep : doOneStep T sim self
      = (Outcome.returned ResumeRes.SYSCALL,
          (writeRegister T sim T.SIM_RISCV_PC_REGNUM
            ((pc + 4) % 2 ^ (8 * T.regBytes)) s2).2) := by
    unfold doOneStep
    rw [hpc]
    simp only [hinsn, if_true]
  have hcalls : (writeRegister T sim T.SIM_RISCV_PC_REGNUM
      ((pc + 4) % 2 ^ (8 * T.regBytes)) s2).2.calls
      = self.calls ++ [SimCall.fetch_register T.SIM_RISCV_PC_REGNUM T.regBytes,
          SimCall.read (pc % 2 ^ 32) 4,
          SimCall.store_register T.SIM_RISCV_PC_REGNUM
            ((pc + 4) % 2 ^ (8 * T.regBytes)) T.regBytes] := by
    rw [writeRegister_calls, h2, h1]
    simp
  refine ⟨by rw [hstep], by rw [hstep], by rw [hstep]; exact hcalls, ?_⟩
  rw [hstep, hcalls, resumeCount_append]
  simp [resumeCount, SimCall.isResume]

/-- Witness of C1 on the small simulator: `ECALL` at address 0, program
counter 0. -/
theorem doOneStep_ecall_witness :
    (doOneStep rv32 toySim (toyTarget 0 [0x73, 0, 0, 0] sim_stop.sim_stopped 5 none)).1
        = Outcome.returned ResumeRes.SYSCALL ∧
    (doOneStep rv32 toySim (toyTarget 0 [0x73, 0, 0, 0] sim_stop.sim_stopped 5 none)).2.calls
        = [SimCall.fetch_register 32 4, SimCall.read 0 4, SimCall.store_register 32 4 4] ∧
    (doOneStep rv32 toySim
        (toyTarget 0 [0x73, 0, 0, 0] sim_stop.sim_stopped 5 none)).2.gdbsim_desc.pc = 4 := by
  have h := doOneStep_ecall rv32 toySim
    (toyTarget 0 [0x73, 0, 0, 0] sim_stop.sim_stopped 5 none) 4 0 4
    (readRegister rv32 toySim 32 (toyTarget 0 [0x73, 0, 0, 0] sim_stop.sim_stopped 5 none)).2
    (read rv32 toySim 0 4
      (readRegister rv32 toySim 32
        (toyTarget 0 [0x73, 0, 0, 0] sim_stop.sim_stopped 5 none)).2).2
    (by rfl) (by rfl)
  refine ⟨h.1, ?_, ?_⟩
  · rw [h.2.2.1]; rfl
  · rw [h.2.1]; rfl

/-- Counterexample to C2 as stated: with `EBREAK` at the program counter and
the simulator stopped on the trap signal, `doOneStep` returns `INTERRUPTED`,
which is not the `swbreak` reason; the same `INTERRUPTED` is what it returns
when the simulator stopped on another signal with no breakpoint in sight. -/
theorem doOneStep_ebreak_is_interrupted :
    (doOneStep rv32 toySim
        (toyTarget 0 [0x73, 0x00, 0x10, 0x00] sim_stop.sim_stopped 5 none)).1
      = Outcome.returned ResumeRes.INTERRUPTED ∧
    (¬ ∃ r, (doOneStep rv32 toySim
        (toyTarget 0 [0x73, 0x00, 0x10, 0x00] sim_stop.sim_stopped 5 none)).1
          = Outcome.returned r ∧ r.reports StopReason.swbreak = true) ∧
    (doOneStep rv32 toySim
        (toyTarget 0 [0x13, 0x00, 0x00, 0x00] sim_stop.sim_stopped 2 none)).1
      = Outcome.returned ResumeRes.INTERRUPTED := by
  refine ⟨by rfl, ?_, by rfl⟩
  rintro ⟨r, _, hr⟩
  cases r <;> simp [ResumeRes.reports] at hr

/-- C2 (amended): when the word at the pre-step program counter is not `ECALL`
and the simulator reports `sim_stopped` with the trap signal, `doOneStep`
returns `INTERRUPTED` if and only if the 2 bytes then read at the pre-step
program counter are `C.EBREAK` (0x9002) or the 4 bytes read there are `EBREAK`
(0x00100073); in every other such case it returns `STEPPED`. -/
theorem doOneStep_trap {σ : Type} (T : Target) (sim : SimLib σ) (self : GdbSimImpl σ)
    (n pc r insn rc cinsn ri insn2 : Nat) (s1 s2 s4 s5 s6 : GdbSimImpl σ)
    (hpc : readRegister T sim T.SIM_RISCV_PC_REGNUM self = ((n, pc), s1))
    (hinsn : read T sim pc 4 s1 = ((r, insn), s2))
    (hne : insn ≠ ECALL)
    (hstop : resumeAndStop sim s2 = ((sim_stop.sim_stopped, T.GDB_SIGNAL_TRAP), s4))
    (hc : read T sim pc 2 s4 = ((rc, cinsn), s5))
    (hi : read T sim pc 4 s5 = ((ri, insn2), s6)) :
    ((doOneStep T sim self).1 = Outcome.returned ResumeRes.INTERRUPTED
      ↔ (cinsn = C_EBREAK ∨ insn2 = EBREAK)) ∧
    (¬ (cinsn = C_EBREAK ∨ insn2 = EBREAK)
      → (doOneStep T sim self).1 = Outcome.returned ResumeRes.STEPPED) := by
  unfold doOneStep
  rw [hpc]
  simp only [hinsn, hne, if_false, hstop, if_true, hc]
  by_cases h1 : cinsn = C_EBREAK
  · simp [h1]
  · by_cases h2 : insn2 = EBREAK
    · simp [h1, hi, h2]
    · simp [h1, hi, h2]

/-- Witness of C2 (amended) on the small simulator: `EBREAK` at the program
counter gives `INTERRUPTED`. -/
theorem doOneStep_trap_witness :
    (doOneStep rv32 toySim
        (toyTarget 0 [0x73, 0x00, 0x10, 0x00] sim_stop.sim_stopped 5 none)).1
      = Outcome.returned ResumeRes.INTERRUPTED
    ↔ ((0x0073 : Nat) = C_EBREAK ∨ (0x00100073 : Nat) = EBREAK) :=
  (doOneStep_trap rv32 toySim
    (toyTarget 0 [0x73, 0x00, 0x10, 0x00] sim_stop.sim_stopped 5 none)
    4 0 4 0x00100073 2 0x0073 4 0x00100073
    (readRegister rv32 toySim 32
      (toyTarget 0 [0x73, 0x00, 0x10, 0x00] sim_stop.sim_stopped 5 none)).2
    (read rv32 toySim 0 4 (readRegister rv32 toySim 32
      (toyTarget 0 [0x73, 0x00, 0x10, 0x00] sim_stop.sim_stopped 5 none)).2).2
    (resumeAndStop toySim (read rv32 toySim 0 4 (readRegister rv32 toySim 32
      (toyTarget 0 [0x73, 0x00, 0x10, 0x00] sim_stop.sim_stopped 5 none)).2).2).2
    (read rv32 toySim 0 2 (resumeAndStop toySim (read rv32 toySim 0 4
      (readRegister rv32 toySim 32
        (toyTarget 0 [0x73, 0x00, 0x10, 0x00] sim_stop.sim_stopped 5 none)).2).2).2).2
    (read rv32 toySim 0 4 (read rv32 toySim 0 2 (resumeAndStop toySim (read rv32 toySim 0 4
      (readRegister rv32 toySim 32
        (toyTarget 0 [0x73, 0x00, 0x10, 0x00] sim_stop.sim_stopped 5 none)).2).2).2).2).2
    (by rfl) (by rfl) (by decide) (by rfl) (by rfl) (by rfl)).1

/-- Counterexample to C3 as stated: when the simulator reports `sim_exited`,
`doOneStep` returns `SYSCALL`, the very value it returns for an `ECALL`, and
that value is not an `exited` reason. -/
theorem doOneStep_exited_is_syscall :
    (doOneStep rv32 toySim
        (toyTarget 0 [0x13, 0x00, 0x00, 0x00] sim_stop.sim_exited 0 none)).1
      = Outcome.returned ResumeRes.SYSCALL ∧
    (doOneStep rv32 toySim
        (toyTarget 0 [0x13, 0x00, 0x00, 0x00] sim_stop.sim_exited 0 none)).1
      = (doOneStep rv32 toySim
        (toyTarget 0 [0x73, 0x00, 0x00, 0x00] sim_stop.sim_stopped 5 none)).1 ∧
    ResumeRes.SYSCALL.reports (StopReason.exited 0) = false := by
  refine ⟨by rfl, by rfl, by rfl⟩

/-- C3 (amended): when the word at the pre-step program counter is not `ECALL`
and the simulator reports `sim_exited`, `doOneStep` returns `SYSCALL`, the same
reason it returns for an `ECALL`, right after the `sim_stop_reason` call. -/
theorem doOneStep_exited {σ : Type} (T : Target) (sim : SimLib σ) (self : GdbSimImpl σ)
    (n pc r insn : Nat) (signo : Int) (s1 s2 s4 : GdbSimImpl σ)
    (hpc : readRegister T sim T.SIM_RISCV_PC_REGNUM self = ((n, pc), s1))
    (hinsn : read T sim pc 4 s1 = ((r, insn), s2))
    (hne : insn ≠ ECALL)
    (hstop : resumeAndStop sim s2 = ((sim_stop.sim_exited, signo), s4)) :
    doOneStep T sim self = (Outcome.returned ResumeRes.SYSCALL, s4) := by
  unfold doOneStep
  rw [hpc]
  simp only [hinsn, hne, if_false, hstop]

/-- Witness of C3 (amended) on the small simulator. -/
theorem doOneStep_exited_witness :
    (doOneStep rv32 toySim
        (toyTarget 0 [0x13, 0x00, 0x00, 0x00] sim_stop.sim_exited 0 none)).1
      = Outcome.returned ResumeRes.SYSCALL :=
  congrArg Prod.fst (doOneStep_exited rv32 toySim
    (toyTarget 0 [0x13, 0x00, 0x00, 0x00] sim_stop.sim_exited 0 none)
    4 0 4 0x13 0
    (readRegister rv32 toySim 32
      (toyTarget 0 [0x13, 0x00, 0x00, 0x00] sim_stop.sim_exited 0 none)).2
    (read rv32 toySim 0 4 (readRegister rv32 toySim 32
      (toyTarget 0 [0x13, 0x00, 0x00, 0x00] sim_stop.sim_exited 0 none)).2).2
    (resumeAndStop toySim (read rv32 toySim 0 4 (readRegister rv32 toySim 32
      (toyTarget 0 [0x13, 0x00, 0x00, 0x00] sim_stop.sim_exited 0 none)).2).2).2
    (by rfl) (by rfl) (by decide) (by rfl))

/-- Counterexample to C4 as stated: when the simulator reports `sim_signalled`
with signal 11, and when it reports `sim_running`, `doOneStep` aborts the
process: no stop reason is returned. -/
theorem doOneStep_signalled_aborts :
    (doOneStep rv32 toySim
        (toyTarget 0 [0x13, 0x00, 0x00, 0x00] sim_stop.sim_signalled 11 none)).1
      = Outcome.aborted ∧
    (¬ ∃ r, (doOneStep rv32 toySim
        (toyTarget 0 [0x13, 0x00, 0x00, 0x00] sim_stop.sim_signalled 11 none)).1
          = Outcome.returned r) ∧
    (doOneStep rv32 toySim
        (toyTarget 0 [0x13, 0x00, 0x00, 0x00] sim_stop.sim_running 0 none)).1
      = Outcome.aborted := by
  refine ⟨by rfl, ?_, by rfl⟩
  rintro ⟨r, hr⟩
  have h : (doOneStep rv32 toySim
      (toyTarget 0 [0x13, 0x00, 0x00, 0x00] sim_stop.sim_signalled 11 none)).1
        = Outcome.aborted := by rfl
  rw [h] at hr
  cases hr

/-- C4 (amended): when the word at the pre-step program counter is not `ECALL`,
`doOneStep` returns a stop reason exactly when the simulator reports
`sim_stopped` or `sim_exited`; when it reports `sim_signalled` (whatever the
signal number) or any state other than stopped or exited (`sim_running`,
`sim_polling`), it aborts the process right after the `sim_stop_reason` call
and returns nothing. -/
theorem doOneStep_abort {σ : Type} (T : Target) (sim : SimLib σ) (self : GdbSimImpl σ)
    (n pc r insn : Nat) (st : sim_stop) (signo : Int) (s1 s2 s4 : GdbSimImpl σ)
    (hpc : readRegister T sim T.SIM_RISCV_PC_REGNUM self = ((n, pc), s1))
    (hinsn : read T sim pc 4 s1 = ((r, insn), s2))
    (hne : insn ≠ ECALL)
    (hstop : resumeAndStop sim s2 = ((st, signo), s4)) :
    (st ≠ sim_stop.sim_stopped → st ≠ sim_stop.sim_exited
      → doOneStep T sim self = (Outcome.aborted, s4)) ∧
    (st = sim_stop.sim_stopped ∨ st = sim_stop.sim_exited
      → ∃ res, (doOneStep T sim self).1 = Outcome.returned res) := by
  unfold doOneStep
  rw [hpc]
  simp only [hinsn, hne, if_false, hstop]
  cases st
  case sim_stopped =>
    refine ⟨fun h => absurd rfl h, fun _ => ?_⟩
    dsimp only
    repeat' split
    all_goals exact ⟨_, rfl⟩
  case sim_exited => exact ⟨fun _ h => absurd rfl h, fun _ => ⟨_, rfl⟩⟩
  all_goals exact ⟨fun _ _ => rfl, fun h => by rcases h with h | h <;> cases h⟩

/-- Witness of C4 (amended) on the small simulator: `sim_signalled` with
signal 11 aborts. -/
theorem doOneStep_abort_witness :
    (doOneStep rv32 toySim
        (toyTarget 0 [0x13, 0x00, 0x00, 0x00] sim_stop.sim_signalled 11 none)).1
      = Outcome.aborted :=
  congrArg Prod.fst ((doOneStep_abort rv32 toySim
    (toyTarget 0 [0x13, 0x00, 0x00, 0x00] sim_stop.sim_signalled 11 none)
    4 0 4 0x13 sim_stop.sim_signalled 11
    (readRegister rv32 toySim 32
      (toyTarget 0 [0x13, 0x00, 0x00, 0x00] sim_stop.sim_signalled 11 none)).2
    (read rv32 toySim 0 4 (readRegister rv32 toySim 32
      (toyTarget 0 [0x13, 0x00, 0x00, 0x00] sim_stop.sim_signalled 11 none)).2).2
    (resumeAndStop toySim (read rv32 toySim 0 4 (readRegister rv32 toySim 32
      (toyTarget 0 [0x13, 0x00, 0x00, 0x00] sim_stop.sim_signalled 11 none)).2).2).2
    (by rfl) (by rfl) (by decide) (by rfl)).1 (by decide) (by decide))

/-! ## Run to break -/

theorem doOneStep_ne_TIMEOUT {σ : Type} (T : Target) (sim : SimLib σ) (self : GdbSimImpl σ) :
    (doOneStep T sim self).1 ≠ Outcome.returned ResumeRes.TIMEOUT := by
  unfold doOneStep
  dsimp only
  repeat' split
  all_goals simp

theorem stepResult_succ {σ : Type} (T : Target) (sim : SimLib σ) (k : Nat)
    (self : GdbSimImpl σ) :
    stepResult T sim (k + 1) self = stepResult T sim k (doOneStep T sim self).2 := rfl

theorem afterSteps_succ {σ : Type} (T : Target) (sim : SimLib σ) (k : Nat)
    (self : GdbSimImpl σ) :
    afterSteps T sim (k + 1) self = afterSteps T sim k (doOneStep T sim self).2 := rfl

/-- Every result of the loop is the first outcome of `doOneStep` that is not
`STEPPED`, or `TIMEOUT` after a `STEPPED` step when the clock has passed the
deadline. -/
theorem doRunToBreakLoop_sound {σ D P : Type} (T : Target) (sim : SimLib σ)
    (C : Chrono D P) (clock : Nat → P)
    (haveTimeout : Bool) (timeout_end : P) :
    ∀ (fuel reads : Nat) (self : GdbSimImpl σ) (o : Outcome ResumeRes) (s' : GdbSimImpl σ),
      doRunToBreakLoop T sim C clock haveTimeout timeout_end fuel reads self = some (o, s') →
      ∃ k, k < fuel ∧
        (∀ i, i < k → stepResult T sim i self = Outcome.returned ResumeRes.STEPPED) ∧
        s' = afterSteps T sim (k + 1) self ∧
        ((stepResult T sim k self = o ∧ o ≠ Outcome.returned ResumeRes.STEPPED) ∨
         (o = Outcome.returned ResumeRes.TIMEOUT ∧ haveTimeout = true ∧
          stepResult T sim k self = Outcome.returned ResumeRes.STEPPED ∧
          C.gt (clock (reads + k)) timeout_end = true)) := by
  intro fuel
  induction fuel with
  | zero => intro reads self o s' h; simp [doRunToBreakLoop] at h
  | succ fuel ih =>
    intro reads self o s' h
    unfold doRunToBreakLoop at h
    rcases hstep : doOneStep T sim self with ⟨o1, s1⟩
    have hr0 : stepResult T sim 0 self = o1 := by
      show (doOneStep T sim self).1 = o1
      rw [hstep]
    have ha1 : afterSteps T sim 1 self = s1 := by
      show (doOneStep T sim self).2 = s1
      rw [hstep]
    rw [hstep] at h
    cases o1 with
    | aborted =>
      simp only [Option.some.injEq, Prod.mk.injEq] at h
      refine ⟨0, Nat.succ_pos _, fun i hi => absurd hi (Nat.not_lt_zero i), ?_, Or.inl ?_⟩
      · rw [ha1]; exact h.2.symm
      · rw [hr0, ← h.1]; simp
    | returned res =>
      dsimp only at h
      by_cases hres : res = ResumeRes.STEPPED
      · subst hres
        simp only [ne_eq, not_true_eq_false, if_false] at h
        have lift : ∀ (rd : Nat),
            (∃ k, k < fuel ∧
              (∀ i, i < k → stepResult T sim i s1 = Outcome.returned ResumeRes.STEPPED) ∧
              s' = afterSteps T sim (k + 1) s1 ∧
              ((stepResult T sim k s1 = o ∧ o ≠ Outcome.returned ResumeRes.STEPPED) ∨
               (o = Outcome.returned ResumeRes.TIMEOUT ∧ haveTimeout = true ∧
                stepResult T sim k s1 = Outcome.returned ResumeRes.STEPPED ∧
                C.gt (clock (rd + k)) timeout_end = true))) →
            (haveTimeout = true → rd = reads + 1) →
            ∃ k, k < fuel + 1 ∧
              (∀ i, i < k → stepResult T sim i self = Outcome.returned ResumeRes.STEPPED) ∧
              s' = afterSteps T sim (k + 1) self ∧
              ((stepResult T sim k self = o ∧ o ≠ Outcome.returned ResumeRes.STEPPED) ∨
               (o = Outcome.returned ResumeRes.TIMEOUT ∧ haveTimeout = true ∧
                stepResult T sim k self = Outcome.returned ResumeRes.STEPPED ∧
                C.gt (clock (reads + k)) timeout_end = true)) := by
          rintro rd ⟨k, hk, hall, hs, hcase⟩ hrd
          have hs1 : (doOneStep T sim self).2 = s1 := by rw [hstep]
          refine ⟨k + 1, Nat.succ_lt_succ hk, ?_, ?_, ?_⟩
          · intro i hi
            cases i with
            | zero => exact hr0
            | succ i =>
              rw [stepResult_succ, hs1]
              exact hall i (Nat.lt_of_succ_lt_succ hi)
          · rw [afterSteps_succ, hs1]; exact hs
          · rw [stepResult_succ, hs1]
            rcases hcase with hc | ⟨h1, h2, h3, h4⟩
            · exact Or.inl hc
            · refine Or.inr ⟨h1, h2, h3, ?_⟩
              have := hrd h2
              subst this
              have e : reads + (k + 1) = reads + 1 + k := by omega
              rw [e]; exact h4
        rcases Bool.eq_false_or_eq_true haveTimeout with hT | hT
        · subst hT
          simp only [if_true] at h
          by_cases hclk : C.gt (clock reads) timeout_end = true
          · simp only [hclk, if_true, Option.some.injEq, Prod.mk.injEq] at h
            refine ⟨0, Nat.succ_pos _, fun i hi => absurd hi (Nat.not_lt_zero i), ?_, Or.inr ?_⟩
            · rw [ha1]; exact h.2.symm
            · exact ⟨h.1.symm, rfl, hr0, hclk⟩
          · simp only [hclk, if_false] at h
            exact lift (reads + 1) (ih (reads + 1) s1 o s' h) (fun _ => rfl)
        · subst hT
          simp only [Bool.false_eq_true, if_false] at h
          exact lift reads (ih reads s1 o s' h) (fun hc => by cases hc)
      · simp only [ne_eq, hres, not_false_eq_true, if_true, Option.some.injEq,
          Prod.mk.injEq] at h
        refine ⟨0, Nat.succ_pos _, fun i hi => absurd hi (Nat.not_lt_zero i), ?_, Or.inl ?_⟩
        · rw [ha1]; exact h.2.symm
        · rw [hr0, ← h.1]
          exact ⟨rfl, fun hc => hres (Outcome.returned.inj hc)⟩

/-- The loop returns as soon as a `doOneStep` outcome is not `STEPPED`, or the
clock has passed the deadline after a `STEPPED` step: `k + 1` iterations are
enough when this first happens at step `k`. -/
theorem doRunToBreakLoop_complete {σ D P : Type} (T : Target) (sim : SimLib σ)
    (C : Chrono D P) (clock : Nat → P) (haveTimeout : Bool) (timeout_end : P) :
    ∀ (k fuel reads : Nat) (self : GdbSimImpl σ) (o : Outcome ResumeRes),
      k < fuel →
      (∀ i, i < k → stepResult T sim i self = Outcome.returned ResumeRes.STEPPED ∧
        ¬ (haveTimeout = true ∧ C.gt (clock (reads + i)) timeout_end = true)) →
      ((stepResult T sim k self = o ∧ o ≠ Outcome.returned ResumeRes.STEPPED) ∨
       (o = Outcome.returned ResumeRes.TIMEOUT ∧ haveTimeout = true ∧
        stepResult T sim k self = Outcome.returned ResumeRes.STEPPED ∧
        C.gt (clock (reads + k)) timeout_end = true)) →
      doRunToBreakLoop T sim C clock haveTimeout timeout_end fuel reads self
        = some (o, afterSteps T sim (k + 1) self) := by
  intro k
  induction k with
  | zero =>
    intro fuel reads self o hk _ hcase
    obtain ⟨f, rfl⟩ : ∃ f, fuel = f + 1 := ⟨fuel - 1, by omega⟩
    unfold doRunToBreakLoop
    have ha1 : afterSteps T sim 1 self = (doOneStep T sim self).2 := rfl
    have hr0 : stepResult T sim 0 self = (doOneStep T sim self).1 := rfl
    rw [ha1]
    rw [hr0] at hcase
    rcases hstep : doOneStep T sim self with ⟨o1, s1⟩
    rw [hstep] at hcase
    rcases hcase with ⟨h1, h2⟩ | ⟨h1, h2, h3, h4⟩
    · dsimp only at h1
      subst h1
      cases o1 with
      | aborted => rfl
      | returned res =>
        have hres : res ≠ ResumeRes.STEPPED := fun hc => h2 (by rw [hc])
        simp [hres]
    · dsimp only at h3
      subst h3
      subst h2
      subst h1
      have h4' : C.gt (clock reads) timeout_end = true := h4
      simp [h4']
  | succ k ih =>
    intro fuel reads self o hk hall hcase
    obtain ⟨f, rfl⟩ : ∃ f, fuel = f + 1 := ⟨fuel - 1, by omega⟩
    have hk' : k < f := Nat.lt_of_succ_lt_succ hk
    have h0 := hall 0 (Nat.succ_pos k)
    have hr0 : stepResult T sim 0 self = (doOneStep T sim self).1 := rfl
    unfold doRunToBreakLoop
    rw [afterSteps_succ]
    rw [stepResult_succ] at hcase
    have hall' : ∀ i, i < k →
        stepResult T sim i (doOneStep T sim self).2 = Outcome.returned ResumeRes.STEPPED ∧
        ¬ (haveTimeout = true ∧ C.gt (clock (reads + 1 + i)) timeout_end = true) := by
      intro i hi
      have := hall (i + 1) (Nat.succ_lt_succ hi)
      rw [stepResult_succ] at this
      have e : reads + (i + 1) = reads + 1 + i := by omega
      rw [e] at this
      exact this
    rw [hr0] at h0
    rcases hstep : doOneStep T sim self with ⟨o1, s1⟩
    rw [hstep] at h0 hall' hcase
    dsimp only at h0 hall' hcase
    rcases h0 with ⟨h01, h02⟩
    subst h01
    rcases Bool.eq_false_or_eq_true haveTimeout with hT | hT
    · subst hT
      have hclk : ¬ (C.gt (clock reads) timeout_end = true) := fun hc => h02 ⟨rfl, hc⟩
      simp only [ne_eq, not_true_eq_false, if_false, if_true, hclk]
      apply ih f (reads + 1) s1 o hk' hall'
      have e : reads + (k + 1) = reads + 1 + k := by omega
      rw [e] at hcase
      exact hcase
    · subst hT
      simp only [ne_eq, not_true_eq_false, if_false, Bool.false_eq_true]
      apply ih f reads s1 o hk'
      · intro i hi
        exact ⟨(hall' i hi).1, fun hc => by cases hc.1⟩
      · rcases hcase with hc | ⟨_, hc, _⟩
        · exact Or.inl hc
        · cases hc

/-- C5: `doRunToBreak` returns the first outcome of `doOneStep` that is not
`STEPPED` (all earlier ones being `STEPPED`), or `TIMEOUT`; `TIMEOUT` only when
the timeout is not zero, the step just made returned `STEPPED` and the clock
read after it is past the start time plus the timeout.  It runs at least one
step; with a timeout of zero it never returns `TIMEOUT`; and it does return
these results: as soon as step `k` gives a result other than `STEPPED`, that
result is returned whatever the clock reads after it, and as soon as the clock
is past the deadline after a `STEPPED` step `k`, `TIMEOUT` is returned. -/
theorem doRunToBreak_result {σ D P : Type} (T : Target) (sim : SimLib σ) (C : Chrono D P)
    (clock : Nat → P) (timeout : D) (self : GdbSimImpl σ) :
    (∀ (fuel : Nat) (o : Outcome ResumeRes) (s' : GdbSimImpl σ),
      doRunToBreak T sim C clock fuel timeout self = some (o, s') →
      ∃ k, k < fuel ∧
        (∀ i, i < k → stepResult T sim i self = Outcome.returned ResumeRes.STEPPED) ∧
        s' = afterSteps T sim (k + 1) self ∧
        ((stepResult T sim k self = o ∧ o ≠ Outcome.returned ResumeRes.STEPPED) ∨
         (o = Outcome.returned ResumeRes.TIMEOUT ∧ C.ne C.zero timeout = true ∧
          stepResult T sim k self = Outcome.returned ResumeRes.STEPPED ∧
          C.gt (clock (k + 1)) (C.add (clock 0) timeout) = true))) ∧
    (C.ne C.zero timeout = false → ∀ (fuel : Nat) (s' : GdbSimImpl σ),
      doRunToBreak T sim C clock fuel timeout self
        ≠ some (Outcome.returned ResumeRes.TIMEOUT, s')) ∧
    (∀ (k fuel : Nat) (o : Outcome ResumeRes), k < fuel →
      (∀ i, i < k → stepResult T sim i self = Outcome.returned ResumeRes.STEPPED ∧
        ¬ (C.ne C.zero timeout = true ∧ C.gt (clock (i + 1)) (C.add (clock 0) timeout) = true)) →
      stepResult T sim k self = o → o ≠ Outcome.returned ResumeRes.STEPPED →
      doRunToBreak T sim C clock fuel timeout self
        = some (o, afterSteps T sim (k + 1) self)) ∧
    (∀ (k fuel : Nat), k < fuel →
      (∀ i, i < k → stepResult T sim i self = Outcome.returned ResumeRes.STEPPED ∧
        ¬ (C.ne C.zero timeout = true ∧ C.gt (clock (i + 1)) (C.add (clock 0) timeout) = true)) →
      stepResult T sim k self = Outcome.returned ResumeRes.STEPPED →
      C.ne C.zero timeout = true → C.gt (clock (k + 1)) (C.add (clock 0) timeout) = true →
      doRunToBreak T sim C clock fuel timeout self
        = some (Outcome.returned ResumeRes.TIMEOUT, afterSteps T sim (k + 1) self)) := by
  have sound : ∀ (fuel : Nat) (o : Outcome ResumeRes) (s' : GdbSimImpl σ),
      doRunToBreak T sim C clock fuel timeout self = some (o, s') →
      ∃ k, k < fuel ∧
        (∀ i, i < k → stepResult T sim i self = Outcome.returned ResumeRes.STEPPED) ∧
        s' = afterSteps T sim (k + 1) self ∧
        ((stepResult T sim k self = o ∧ o ≠ Outcome.returned ResumeRes.STEPPED) ∨
         (o = Outcome.returned ResumeRes.TIMEOUT ∧ C.ne C.zero timeout = true ∧
          stepResult T sim k self = Outcome.returned ResumeRes.STEPPED ∧
          C.gt (clock (k + 1)) (C.add (clock 0) timeout) = true)) := by
    intro fuel o s' h
    unfold doRunToBreak at h
    by_cases ht : C.ne C.zero timeout = true
    swap
    · rw [if_neg ht] at h
      obtain ⟨k, hk, hall, hs, hcase⟩ :=
        doRunToBreakLoop_sound T sim C clock false C.epoch fuel 0 self o s' h
      refine ⟨k, hk, hall, hs, ?_⟩
      rcases hcase with hc | ⟨_, hc, _⟩
      · exact Or.inl hc
      · cases hc
    · rw [if_pos ht] at h
      obtain ⟨k, hk, hall, hs, hcase⟩ :=
        doRunToBreakLoop_sound T sim C clock true (C.add (clock 0) timeout) fuel 1 self o s' h
      refine ⟨k, hk, hall, hs, ?_⟩
      rcases hcase with hc | ⟨h1, _, h3, h4⟩
      · exact Or.inl hc
      · refine Or.inr ⟨h1, ht, h3, ?_⟩
        rw [Nat.add_comm]; exact h4
  have complete : ∀ (k fuel : Nat) (o : Outcome ResumeRes), k < fuel →
      (∀ i, i < k → stepResult T sim i self = Outcome.returned ResumeRes.STEPPED ∧
        ¬ (C.ne C.zero timeout = true ∧ C.gt (clock (i + 1)) (C.add (clock 0) timeout) = true)) →
      ((stepResult T sim k self = o ∧ o ≠ Outcome.returned ResumeRes.STEPPED) ∨
       (o = Outcome.returned ResumeRes.TIMEOUT ∧ C.ne C.zero timeout = true ∧
        stepResult T sim k self = Outcome.returned ResumeRes.STEPPED ∧
        C.gt (clock (k + 1)) (C.add (clock 0) timeout) = true)) →
      doRunToBreak T sim C clock fuel timeout self
        = some (o, afterSteps T sim (k + 1) self) := by
    intro k fuel o hk hall hcase
    unfold doRunToBreak
    by_cases ht : C.ne C.zero timeout = true
    swap
    · rw [if_neg ht]
      apply doRunToBreakLoop_complete T sim C clock false C.epoch k fuel 0 self o hk
      · intro i hi
        exact ⟨(hall i hi).1, fun hc => by cases hc.1⟩
      · rcases hcase with hc | ⟨_, hc, _⟩
        · exact Or.inl hc
        · exact absurd hc ht
    · rw [if_pos ht]
      apply doRunToBreakLoop_complete T sim C clock true (C.add (clock 0) timeout) k fuel 1
        self o hk
      · intro i hi
        refine ⟨(hall i hi).1, fun hc => (hall i hi).2 ⟨ht, ?_⟩⟩
        rw [Nat.add_comm]; exact hc.2
      · rcases hcase with hc | ⟨h1, _, h3, h4⟩
        · exact Or.inl hc
        · refine Or.inr ⟨h1, rfl, h3, ?_⟩
          rw [Nat.add_comm]; exact h4
  refine ⟨sound, ?_, ?_, ?_⟩
  · intro ht fuel s' h
    obtain ⟨k, _, _, _, hcase⟩ := sound fuel _ s' h
    rcases hcase with ⟨hc, _⟩ | ⟨_, hc, _⟩
    · exact doOneStep_ne_TIMEOUT T sim _ hc
    · rw [ht] at hc
      cases hc
  · intro k fuel o hk hall hres hne
    exact complete k fuel o hk hall (Or.inl ⟨hres, hne⟩)
  · intro k fuel hk hall hres ht hclk
    exact complete k fuel _ hk hall (Or.inr ⟨rfl, ht, hres, hclk⟩)

/-- Witness of C5 on the small simulator, whose every step is `STEPPED`: with a
timeout of 10 ticks and a clock that reads 0, 1, 2, ..., the loop returns
`TIMEOUT` after 11 steps (the clock then reads 11); and with `ECALL` at the
program counter the first step's `SYSCALL` is returned although the clock is
already past the deadline. -/
theorem doRunToBreak_result_witness :
    doRunToBreak rv32 toySim ticks (fun k => (k : Int)) 11 10
        (toyTarget 0 [] sim_stop.sim_stopped 5 none)
      = some (Outcome.returned ResumeRes.TIMEOUT,
          afterSteps rv32 toySim 11 (toyTarget 0 [] sim_stop.sim_stopped 5 none)) ∧
    doRunToBreak rv32 toySim ticks (fun k => 100 * (k : Int)) 1 10
        (toyTarget 0 [0x73, 0, 0, 0] sim_stop.sim_stopped 5 none)
      = some (Outcome.returned ResumeRes.SYSCALL,
          afterSteps rv32 toySim 1 (toyTarget 0 [0x73, 0, 0, 0] sim_stop.sim_stopped 5 none)) :=
  ⟨(doRunToBreak_result rv32 toySim ticks (fun k => (k : Int)) 10
      (toyTarget 0 [] sim_stop.sim_stopped 5 none)).2.2.2 10 11 (by decide)
      (by
        intro i hi
        refine ⟨?_, fun hc => ?_⟩
        · interval_cases i <;> rfl
        · have := hc.2
          simp only [ticks, gt_iff_lt, decide_eq_true_eq] at this
          omega)
      (by rfl) (by decide) (by decide),
   (doRunToBreak_result rv32 toySim ticks (fun k => 100 * (k : Int)) 10
      (toyTarget 0 [0x73, 0, 0, 0] sim_stop.sim_stopped 5 none)).2.2.1 0 1 _ (by decide)
      (fun i hi => absurd hi (Nat.not_lt_zero i)) (by rfl) (by decide)⟩

/-! ## The recorded server plays no part in a resume -/

theorem readRegister_gdbServer {σ : Type} (T : Target) (sim : SimLib σ) (reg : Int)
    (g : Option GdbServer) (self : GdbSimImpl σ) :
    readRegister T sim reg (gdbServer g self)
      = ((readRegister T sim reg self).1, gdbServer g (readRegister T sim reg self).2) := by
  unfold readRegister gdbServer
  dsimp only
  split <;> rfl

theorem read_gdbServer {σ : Type} (T : Target) (sim : SimLib σ) (addr size : Nat)
    (g : Option GdbServer) (self : GdbSimImpl σ) :
    read T sim addr size (gdbServer g self)
      = ((read T sim addr size self).1, gdbServer g (read T sim addr size self).2) := rfl

theorem writeRegister_gdbServer {σ : Type} (T : Target) (sim : SimLib σ) (reg : Int)
    (value : Nat) (g : Option GdbServer) (self : GdbSimImpl σ) :
    writeRegister T sim reg value (gdbServer g self)
      = ((writeRegister T sim reg value self).1,
          gdbServer g (writeRegister T sim reg value self).2) := rfl

theorem resumeAndStop_gdbServer {σ : Type} (sim : SimLib σ)
    (g : Option GdbServer) (self : GdbSimImpl σ) :
    resumeAndStop sim (gdbServer g self)
      = ((resumeAndStop sim self).1, gdbServer g (resumeAndStop sim self).2) := rfl

theorem doOneStep_gdbServer {σ : Type} (T : Target) (sim : SimLib σ)
    (g : Option GdbServer) (self : GdbSimImpl σ) :
    doOneStep T sim (gdbServer g self)
      = ((doOneStep T sim self).1, gdbServer g (doOneStep T sim self).2) := by
  unfold doOneStep
  rw [readRegister_gdbServer]
  rcases readRegister T sim T.SIM_RISCV_PC_REGNUM self with ⟨⟨n, pc⟩, s1⟩
  dsimp only
  rw [read_gdbServer]
  rcases read T sim pc 4 s1 with ⟨⟨r, insn⟩, s2⟩
  dsimp only
  split
  · rw [writeRegister_gdbServer]
  · rw [resumeAndStop_gdbServer]
    rcases resumeAndStop sim s2 with ⟨⟨st, signo⟩, s4⟩
    cases st
    case sim_stopped =>
      dsimp only
      split
      · rw [read_gdbServer]
        rcases read T sim pc 2 s4 with ⟨⟨rc, cinsn⟩, s5⟩
        dsimp only
        split
        · rfl
        · rw [read_gdbServer]
          rcases read T sim pc 4 s5 with ⟨⟨ri, insn2⟩, s6⟩
          dsimp only
          split <;> rfl
      · rfl
    all_goals rfl

theorem doRunToBreakLoop_gdbServer {σ D P : Type} (T : Target) (sim : SimLib σ)
    (C : Chrono D P) (clock : Nat → P) (haveTimeout : Bool) (timeout_end : P) (g : Option GdbServer) :
    ∀ (fuel reads : Nat) (self : GdbSimImpl σ),
      doRunToBreakLoop T sim C clock haveTimeout timeout_end fuel reads (gdbServer g self)
        = (doRunToBreakLoop T sim C clock haveTimeout timeout_end fuel reads self).map
            (fun p => (p.1, gdbServer g p.2)) := by
  intro fuel
  induction fuel with
  | zero => intro reads self; rfl
  | succ fuel ih =>
    intro reads self
    unfold doRunToBreakLoop
    rw [doOneStep_gdbServer]
    rcases doOneStep T sim self with ⟨o1, s1⟩
    cases o1 with
    | aborted => rfl
    | returned res =>
      dsimp only
      split
      · rfl
      · split
        · split
          · rfl
          · exact ih (reads + 1) s1
        · exact ih reads s1

/-- Counterexample to C6 as stated: the engine's cancellation request is
outstanding on the recorded server before the resume starts, yet
`doRunToBreak` steps 11 instructions and returns `TIMEOUT`, not `INTERRUPTED`
(timeout of 10 ticks, clock reading 0, 1, 2, ...); with no timeout it is still
stepping after 50 instructions. -/
theorem doRunToBreak_ignores_cancellation :
    (doRunToBreak rv32 toySim ticks (fun k => (k : Int)) 50 10
        (gdbServer (some { stopRequested := true })
          (toyTarget 0 [] sim_stop.sim_stopped 5 none))).map
      (fun p => (p.1, resumeCount p.2.calls, p.2.mServer))
      = some (Outcome.returned ResumeRes.TIMEOUT, 11, some { stopRequested := true }) ∧
    doRunToBreak rv32 toySim ticks (fun k => (k : Int)) 50 0
        (gdbServer (some { stopRequested := true })
          (toyTarget 0 [] sim_stop.sim_stopped 5 none))
      = none := by
  refine ⟨by rfl, by rfl⟩

/-- C6 (amended): the run-to-break loop makes no cancellation check between
steps.  Whatever server has been recorded with `gdbServer`, with a cancellation
request outstanding or not, `doRunToBreak` gives the same result after the same
steps and leaves the record as it was; it returns `INTERRUPTED` only when a
`doOneStep` has returned it. -/
theorem doRunToBreak_gdbServer {σ D P : Type} (T : Target) (sim : SimLib σ)
    (C : Chrono D P) (clock : Nat → P)
    (fuel : Nat) (timeout : D) (g : Option GdbServer) (self : GdbSimImpl σ) :
    doRunToBreak T sim C clock fuel timeout (gdbServer g self)
      = (doRunToBreak T sim C clock fuel timeout self).map (fun p => (p.1, gdbServer g p.2)) ∧
    (∀ s', doRunToBreak T sim C clock fuel timeout (gdbServer g self)
        = some (Outcome.returned ResumeRes.INTERRUPTED, s') →
      ∃ k, k < fuel ∧ stepResult T sim k (gdbServer g self)
        = Outcome.returned ResumeRes.INTERRUPTED) := by
  constructor
  · unfold doRunToBreak
    split
    · exact doRunToBreakLoop_gdbServer T sim C clock true _ g fuel 1 self
    · exact doRunToBreakLoop_gdbServer T sim C clock false _ g fuel 0 self
  · intro s' h
    unfold doRunToBreak at h
    split at h
    · obtain ⟨k, hk, _, _, hcase⟩ := doRunToBreakLoop_sound T sim C clock true _ fuel 1 _ _ s' h
      rcases hcase with ⟨hc, _⟩ | ⟨hc, _⟩
      · exact ⟨k, hk, hc⟩
      · cases hc
    · obtain ⟨k, hk, _, _, hcase⟩ := doRunToBreakLoop_sound T sim C clock false _ fuel 0 _ _ s' h
      rcases hcase with ⟨hc, _⟩ | ⟨hc, _⟩
      · exact ⟨k, hk, hc⟩
      · cases hc

/-- Witness of C6 (amended) on the small simulator: the run with a cancellation
request recorded is the run without a server, record apart. -/
theorem doRunToBreak_gdbServer_witness :
    doRunToBreak rv32 toySim ticks (fun k => (k : Int)) 50 10
        (gdbServer (some { stopRequested := true })
          (toyTarget 0 [] sim_stop.sim_stopped 5 none))
      = (doRunToBreak rv32 toySim ticks (fun k => (k : Int)) 50 10
          (toyTarget 0 [] sim_stop.sim_stopped 5 none)).map
        (fun p => (p.1, gdbServer (some { stopRequested := true }) p.2)) :=
  (doRunToBreak_gdbServer rv32 toySim ticks (fun k => (k : Int)) 50 10
    (some { stopRequested := true }) (toyTarget 0 [] sim_stop.sim_stopped 5 none)).1

/-! ## Resume -/

/-- C7: for every resume type, `resume (type)` is `resume (type, zero)`;
`resume (STEP, t)` is one `doOneStep` and `resume (CONTINUE, t)` is
`doRunToBreak (t)`, for every timeout `t`. -/
theorem resume_eq {σ D P : Type} (T : Target) (sim : SimLib σ) (C : Chrono D P) (clock : Nat → P)
    (fuel : Nat) (self : GdbSimImpl σ) :
    (∀ step : ResumeType,
      resume T sim C clock fuel step self = resumeWithTimeout T sim C clock fuel step C.zero self) ∧
    (∀ t : D,
      resumeWithTimeout T sim C clock fuel ResumeType.STEP t self
        = some (doOneStep T sim self)) ∧
    (∀ t : D,
      resumeWithTimeout T sim C clock fuel ResumeType.CONTINUE t self
        = doRunToBreak T sim C clock fuel t self) :=
  ⟨fun _ => rfl, fun _ => rfl, fun _ => rfl⟩

/-- Witness of C7 on the small simulator: a `CONTINUE` with no timeout from an
`ECALL` gives the `SYSCALL` of the one step made. -/
theorem resume_eq_witness :
    resume rv32 toySim ticks (fun k => (k : Int)) 5 ResumeType.CONTINUE
        (toyTarget 0 [0x73, 0, 0, 0] sim_stop.sim_stopped 5 none)
      = some (doOneStep rv32 toySim (toyTarget 0 [0x73, 0, 0, 0] sim_stop.sim_stopped 5 none)) ∧
    (doOneStep rv32 toySim (toyTarget 0 [0x73, 0, 0, 0] sim_stop.sim_stopped 5 none)).1
      = Outcome.returned ResumeRes.SYSCALL := by
  have h := (resume_eq rv32 toySim ticks (fun k => (k : Int)) 5
    (toyTarget 0 [0x73, 0, 0, 0] sim_stop.sim_stopped 5 none)).1 ResumeType.CONTINUE
  rw [h]
  exact ⟨by rfl, by rfl⟩

/-! ## The operations that abort -/

/-- C8: `getCycleCount`, `getInstrCount`, `timeStamp`, `insertMatchpoint`,
`removeMatchpoint`, `command` and `terminate` abort the process for every input
and every state of the object: none returns a value; `insertMatchpoint` never
returns `false` and the counters never return 0. -/
theorem stubs_abort {σ : Type} (self : GdbSimImpl σ) (addr : Nat) (matchType : MatchType)
    (cmd stream : String) :
    (getCycleCount self).1 = Outcome.aborted ∧
    (getInstrCount self).1 = Outcome.aborted ∧
    (timeStamp self).1 = Outcome.aborted ∧
    (insertMatchpoint addr matchType self).1 = Outcome.aborted ∧
    (removeMatchpoint addr matchType self).1 = Outcome.aborted ∧
    (command cmd stream self).1 = Outcome.aborted ∧
    (terminate self).1 = Outcome.aborted ∧
    (insertMatchpoint addr matchType self).1 ≠ Outcome.returned false ∧
    (getCycleCount self).1 ≠ Outcome.returned 0 ∧
    (getInstrCount self).1 ≠ Outcome.returned 0 := by
  refine ⟨rfl, rfl, rfl, rfl, rfl, rfl, rfl, ?_, ?_, ?_⟩ <;> intro h <;> cases h

/-! ## Case-insensitive comparison -/

theorem char_toNat_inj {a b : Char} (h : a.toNat = b.toNat) : a = b := by
  apply Char.ext
  apply UInt32.ext
  exact h

theorem tolower_toNat_ne_zero {c : Char} (hc : c ≠ NUL) : (tolower c).toNat ≠ 0 := by
  unfold tolower Char.toLower
  dsimp only
  split
  · rename_i h
    obtain ⟨h1, h2⟩ := h
    generalize c.toNat = n at h1 h2
    have h1' : 65 ≤ n := h1
    interval_cases n <;> decide
  · intro h0
    apply hc
    apply char_toNat_inj
    rw [h0]
    rfl

theorem cstr_ne_NUL (s : String) : ∀ c ∈ cstr s, c ≠ NUL := by
  intro c hc
  have := List.mem_takeWhile_imp hc
  simpa using this

theorem strcasecmp_eq_zero_iff : ∀ (a b : List Char),
    (∀ c ∈ a, c ≠ NUL) → (∀ c ∈ b, c ≠ NUL) →
    (0 = strcasecmp a b ↔ a.map Char.toLower = b.map Char.toLower)
  | [], [], _, _ => by simp [strcasecmp]
  | [], b :: bs, _, hb => by
    have h := tolower_toNat_ne_zero (hb b (List.mem_cons_self b bs))
    simp only [strcasecmp, List.map_nil, List.map_cons]
    constructor
    · intro h0
      exfalso
      omega
    · intro h0
      cases h0
  | a :: as, [], ha, _ => by
    have h := tolower_toNat_ne_zero (ha a (List.mem_cons_self a as))
    simp only [strcasecmp, List.map_nil, List.map_cons]
    constructor
    · intro h0
      exfalso
      omega
    · intro h0
      cases h0
  | a :: as, b :: bs, ha, hb => by
    have ih := strcasecmp_eq_zero_iff as bs
      (fun c hc => ha c (List.mem_cons_of_mem a hc))
      (fun c hc => hb c (List.mem_cons_of_mem b hc))
    simp only [strcasecmp, List.map_cons, List.cons.injEq]
    by_cases hab : tolower a = tolower b
    · rw [if_pos hab, ih]
      exact ⟨fun h => ⟨hab, h⟩, fun h => h.2⟩
    · rw [if_neg hab]
      constructor
      · intro h0
        exfalso
        apply hab
        apply char_toNat_inj
        omega
      · intro h0
        exact absurd h0.1 hab

theorem accepts_iff_caseVariant (b name : String) :
    0 = strcasecmp (cstr b) (cstr name) ↔ caseVariant b name :=
  strcasecmp_eq_zero_iff (cstr b) (cstr name) (cstr_ne_NUL b) (cstr_ne_NUL name)

/-! ## The option loop of `main` -/

theorem optionLoop_ok (isFlag : String → Bool) :
    ∀ (opts : List GetoptReturn) (l l' : MainLocals),
      optionLoop isFlag opts l = Except.ok l' →
      l'.from_stdin = (l.from_stdin || stdinSelected opts) ∧
      l'.coreName = opts.foldl (fun acc o => if o.1 = 'c' then some o.2 else acc) l.coreName := by
  intro opts
  induction opts with
  | nil =>
    intro l l' h
    simp only [optionLoop, Except.ok.injEq] at h
    subst h
    simp [stdinSelected]
  | cons o rest ih =>
    intro l l' h
    obtain ⟨c, optarg⟩ := o
    unfold optionLoop at h
    split_ifs at h with h1 h2 h3 h4 h5 h6 h7 h8
    · obtain ⟨e1, e2⟩ := ih _ _ h
      subst h1
      refine ⟨?_, ?_⟩
      · rw [e1]; simp [stdinSelected]
      · rw [e2]; simp
    · obtain ⟨e1, e2⟩ := ih _ _ h
      subst h3
      refine ⟨?_, ?_⟩
      · rw [e1]; simp [stdinSelected]
      · rw [e2]; simp
    · obtain ⟨e1, e2⟩ := ih _ _ h
      subst h4
      refine ⟨?_, ?_⟩
      · rw [e1]; simp [stdinSelected]
      · rw [e2]; simp
    · obtain ⟨e1, e2⟩ := ih _ _ h
      subst h6
      refine ⟨?_, ?_⟩
      · rw [e1]; simp [stdinSelected]
      · rw [e2]; simp

theorem optionLoop_error (isFlag : String → Bool) :
    ∀ (opts : List GetoptReturn) (l : MainLocals) (code : Int),
      (∀ o ∈ opts, helpOrVersion o = false) →
      optionLoop isFlag opts l = Except.error code → code = EXIT_FAILURE := by
  intro opts
  induction opts with
  | nil => intro l code _ h; simp [optionLoop] at h
  | cons o rest ih =>
    intro l code hhv h
    obtain ⟨c, optarg⟩ := o
    have hc := hhv (c, optarg) (List.mem_cons_self _ _)
    have hrest : ∀ o ∈ rest, helpOrVersion o = false :=
      fun o ho => hhv o (List.mem_cons_of_mem _ ho)
    simp only [helpOrVersion, Bool.or_eq_false_iff, beq_eq_false_iff_ne, ne_eq] at hc
    unfold optionLoop at h
    split_ifs at h with h1 h2 h3 h4 h5 h6 h7 h8
    all_goals first
      | exact ih _ _ hrest h
      | exact absurd h2 hc.1
      | exact absurd h8 hc.2
      | exact (Except.error.inj h).symm

theorem optionLoop_bad_trace (isFlag : String → Bool) (v : String) (post : List GetoptReturn)
    (hv : isFlag v = false) :
    ∀ (pre : List GetoptReturn) (l : MainLocals),
      (∀ o ∈ pre, helpOrVersion o = false) →
      optionLoop isFlag (pre ++ ('t', v) :: post) l = Except.error EXIT_FAILURE := by
  intro pre
  induction pre with
  | nil =>
    intro l _
    simp [optionLoop, hv]
  | cons o rest ih =>
    intro l hhv
    obtain ⟨c, optarg⟩ := o
    have hc := hhv (c, optarg) (List.mem_cons_self _ _)
    have hrest : ∀ o ∈ rest, helpOrVersion o = false :=
      fun o ho => hhv o (List.mem_cons_of_mem _ ho)
    simp only [helpOrVersion, Bool.or_eq_false_iff, beq_eq_false_iff_ne, ne_eq] at hc
    rw [List.cons_append]
    unfold optionLoop
    split_ifs with h1 h2 h3 h4 h5 h6 h7 h8
    all_goals first
      | exact ih _ hrest
      | exact absurd h2 hc.1
      | exact absurd h8 hc.2
      | rfl

theorem foldl_core_absent (opts : List GetoptReturn) (h : ∀ o ∈ opts, o.1 ≠ 'c') :
    ∀ acc : Option String,
      opts.foldl (fun acc o => if o.1 = 'c' then some o.2 else acc) acc = acc := by
  induction opts with
  | nil => intro acc; rfl
  | cons o rest ih =>
    intro acc
    rw [List.foldl_cons, if_neg (h o (List.mem_cons_self _ _))]
    exact ih (fun o ho => h o (List.mem_cons_of_mem _ ho)) acc

/-! ## Creation of the target -/

theorem createCpu_eq_none (build : BuildConfig) (name : String)
    (h : ∀ b ∈ builtNames build, ¬ caseVariant b name) :
    createCpu build name = none := by
  unfold createCpu
  rw [if_neg, if_neg, if_neg]
  · rintro ⟨hb, hs⟩
    exact h "RI5CY" (by simp [builtNames, hb]) ((accepts_iff_caseVariant _ _).1 hs)
  · rintro ⟨hb, hs⟩
    exact h "PicoRV32" (by simp [builtNames, hb]) ((accepts_iff_caseVariant _ _).1 hs)
  · rintro ⟨hb, hs⟩
    exact h "GDBSIM" (by simp [builtNames, hb]) ((accepts_iff_caseVariant _ _).1 hs)

theorem createCpu_accepts (build : BuildConfig) (name : String) :
    (build.BUILD_GDBSIM_MODEL = true → caseVariant "GDBSIM" name →
      createCpu build name = some ITarget.GdbSim) ∧
    (build.BUILD_PICORV32_MODEL = true → caseVariant "PicoRV32" name →
      createCpu build name = some ITarget.Picorv32) ∧
    (build.BUILD_RI5CY_MODEL = true → caseVariant "RI5CY" name →
      createCpu build name = some ITarget.Ri5cy) := by
  refine ⟨?_, ?_, ?_⟩
  · intro hb hv
    unfold createCpu
    rw [if_pos ⟨hb, (accepts_iff_caseVariant _ _).2 hv⟩]
  · intro hb hv
    have hg : ¬ caseVariant "GDBSIM" name := by
      intro hc
      unfold caseVariant at hc hv
      rw [← hv] at hc
      revert hc
      decide
    unfold createCpu
    rw [if_neg (fun hc => hg ((accepts_iff_caseVariant _ _).1 hc.2)),
      if_pos ⟨hb, (accepts_iff_caseVariant _ _).2 hv⟩]
  · intro hb hv
    have hg : ¬ caseVariant "GDBSIM" name := by
      intro hc
      unfold caseVariant at hc hv
      rw [← hv] at hc
      revert hc
      decide
    have hp : ¬ caseVariant "PicoRV32" name := by
      intro hc
      unfold caseVariant at hc hv
      rw [← hv] at hc
      revert hc
      decide
    unfold createCpu
    rw [if_neg (fun hc => hg ((accepts_iff_caseVariant _ _).1 hc.2)),
      if_neg (fun hc => hp ((accepts_iff_caseVariant _ _).1 hc.2)),
      if_pos ⟨hb, (accepts_iff_caseVariant _ _).2 hv⟩]

/-! ## `main` -/

/-- C9: whenever `main` hands a kill policy to a `GdbServer`, the policy is
decided by the transport alone: it is `EXIT_ON_KILL` if and only if `--stdin`
(`-s`) was given, and the connection is then the stream connection; it is
`RESET_ON_KILL` if and only if `--stdin` was not given, and the connection is
then the TCP connection on the port read from the single positional argument. -/
theorem main_killBehaviour (env : MainEnv) (opts : List GetoptReturn)
    (positional : List String) (conn : Connection) (cpu : ITarget) (kb : KillBehaviour)
    (h : MainEvent.newGdbServer conn cpu kb ∈ (main env opts positional).events) :
    (kb = KillBehaviour.EXIT_ON_KILL ↔ stdinSelected opts = true) ∧
    (kb = KillBehaviour.RESET_ON_KILL ↔ stdinSelected opts = false) ∧
    (kb = KillBehaviour.EXIT_ON_KILL ↔ conn = Connection.StreamConnection) ∧
    (kb = KillBehaviour.RESET_ON_KILL ↔
      (positional.length = 1 ∧
        conn = Connection.RspConnection (env.atoi (positional.headD "")))) := by
  unfold main at h
  cases hloop : optionLoop env.isFlag opts
      { coreName := none, from_stdin := false, traceFlags := [] } with
  | error code => simp [hloop] at h
  | ok l =>
    have hs := (optionLoop_ok env.isFlag opts _ l hloop).1
    simp only [Bool.false_or] at hs
    simp only [hloop] at h
    by_cases h1 : (positional.length ≠ 1 ∧ ¬ l.from_stdin = true) ∨ l.coreName = none
    · rw [if_pos h1] at h
      simp at h
    · rw [if_neg h1] at h
      cases hcn : l.coreName with
      | none => simp [hcn] at h
      | some coreName =>
        simp only [hcn] at h
        cases hcpu : createCpu env.build coreName with
        | none => simp [hcpu] at h
        | some cpu1 =>
          simp only [hcpu] at h
          by_cases h2 : l.from_stdin = true
          · rw [if_pos h2] at h
            simp only [List.mem_cons, MainEvent.newGdbServer.injEq, reduceCtorEq,
              false_or, List.mem_singleton, or_false, List.not_mem_nil] at h
            obtain ⟨rfl, _, rfl⟩ := h
            rw [← hs, h2]
            simp
          · rw [if_neg h2] at h
            simp only [List.mem_cons, MainEvent.newGdbServer.injEq, reduceCtorEq,
              false_or, List.mem_singleton, or_false, List.not_mem_nil] at h
            obtain ⟨rfl, _, rfl⟩ := h
            have hlen : positional.length = 1 := by
              by_contra hc
              exact h1 (Or.inl ⟨hc, h2⟩)
            rw [← hs]
            simp [h2, hlen]

/-- Witness of C9: `--core gdbsim --stdin` hands `EXIT_ON_KILL` with the stream
connection, and `--core gdbsim 1234` hands `RESET_ON_KILL` with the TCP
connection on port 1234. -/
theorem main_killBehaviour_witness :
    (MainEvent.newGdbServer Connection.StreamConnection ITarget.GdbSim
        KillBehaviour.EXIT_ON_KILL
      ∈ (main gdbsimEnv [('c', "gdbsim"), ('s', "")] []).events ∧
    (KillBehaviour.EXIT_ON_KILL = KillBehaviour.EXIT_ON_KILL
      ↔ stdinSelected [('c', "gdbsim"), ('s', "")] = true)) ∧
    (MainEvent.newGdbServer (Connection.RspConnection 1234) ITarget.GdbSim
        KillBehaviour.RESET_ON_KILL
      ∈ (main gdbsimEnv [('c', "gdbsim")] ["1234"]).events ∧
    (KillBehaviour.RESET_ON_KILL = KillBehaviour.RESET_ON_KILL
      ↔ stdinSelected [('c', "gdbsim")] = false)) :=
  ⟨⟨by decide,
    (main_killBehaviour gdbsimEnv [('c', "gdbsim"), ('s', "")] []
      Connection.StreamConnection ITarget.GdbSim KillBehaviour.EXIT_ON_KILL (by decide)).1⟩,
   ⟨by decide,
    (main_killBehaviour gdbsimEnv [('c', "gdbsim")] ["1234"]
      (Connection.RspConnection 1234) ITarget.GdbSim KillBehaviour.RESET_ON_KILL
      (by decide)).2.1⟩⟩

/-- C10: `main` returns a non-zero exit code, having constructed nothing (no
target, no connection, no server) and run nothing, when no `--help` or
`--version` comes first and: `--core` is absent; or the core name is a case
variant of none of the built back-end names; or a `--trace` value is not a
flag; or `--stdin` is absent and the positional arguments are not exactly one.
And `createCpu` gives a target, not `nullptr`, for every case variant of a
built back-end name. -/
theorem main_rejects (env : MainEnv) (opts : List GetoptReturn) (positional : List String) :
    ((∀ o ∈ opts, helpOrVersion o = false) → (∀ o ∈ opts, o.1 ≠ 'c') →
      (main env opts positional).exitCode ≠ 0 ∧ (main env opts positional).events = []) ∧
    (∀ name : String, (∀ o ∈ opts, helpOrVersion o = false) → coreNameOf opts = some name →
      (∀ b ∈ builtNames env.build, ¬ caseVariant b name) →
      (main env opts positional).exitCode ≠ 0 ∧ (main env opts positional).events = []) ∧
    (∀ (pre post : List GetoptReturn) (v : String), opts = pre ++ ('t', v) :: post →
      (∀ o ∈ pre, helpOrVersion o = false) → env.isFlag v = false →
      (main env opts positional).exitCode ≠ 0 ∧ (main env opts positional).events = []) ∧
    ((∀ o ∈ opts, helpOrVersion o = false) → stdinSelected opts = false →
      positional.length ≠ 1 →
      (main env opts positional).exitCode ≠ 0 ∧ (main env opts positional).events = []) ∧
    (∀ name : String, ∀ b ∈ builtNames env.build, caseVariant b name →
      ∃ cpu, createCpu env.build name = some cpu) := by
  have fail : ∀ r : MainResult, r = { exitCode := EXIT_FAILURE, events := [], globalCpu := none } →
      r.exitCode ≠ 0 ∧ r.events = [] := by
    intro r hr
    subst hr
    exact ⟨by decide, rfl⟩
  refine ⟨?_, ?_, ?_, ?_, ?_⟩
  · intro hhv hc
    apply fail
    unfold main
    split
    · rename_i code hloop
      rw [optionLoop_error env.isFlag opts _ code hhv hloop]
    · rename_i l hloop
      have hcore := (optionLoop_ok env.isFlag opts _ l hloop).2
      rw [foldl_core_absent opts hc] at hcore
      rw [if_pos (Or.inr hcore)]
  · intro name hhv hname hnone
    apply fail
    unfold main
    split
    · rename_i code hloop
      rw [optionLoop_error env.isFlag opts _ code hhv hloop]
    · rename_i l hloop
      have hcore := (optionLoop_ok env.isFlag opts _ l hloop).2
      have hname' : opts.foldl (fun acc o => if o.1 = 'c' then some o.2 else acc) none
          = some name := hname
      rw [hname'] at hcore
      by_cases h1 : (positional.length ≠ 1 ∧ ¬ l.from_stdin = true) ∨ l.coreName = none
      · rw [if_pos h1]
      · rw [if_neg h1]
        simp only [hcore, createCpu_eq_none env.build name hnone]
  · intro pre post v hopts hhv hflag
    apply fail
    unfold main
    rw [hopts, optionLoop_bad_trace env.isFlag v post hflag pre _ hhv]
  · intro hhv hs hlen
    apply fail
    unfold main
    split
    · rename_i code hloop
      rw [optionLoop_error env.isFlag opts _ code hhv hloop]
    · rename_i l hloop
      have hstd := (optionLoop_ok env.isFlag opts _ l hloop).1
      rw [hs] at hstd
      simp only [Bool.false_or] at hstd
      rw [if_pos (Or.inl ⟨hlen, by rw [hstd]; decide⟩)]
  · intro name b hb hv
    have hacc := createCpu_accepts env.build name
    unfold builtNames at hb
    simp only [List.mem_append] at hb
    rcases hb with (hb | hb) | hb
    · split_ifs at hb with hbuild
      · rw [List.mem_singleton.1 hb] at hv
        exact ⟨_, hacc.1 hbuild hv⟩
      · cases hb
    · split_ifs at hb with hbuild
      · rw [List.mem_singleton.1 hb] at hv
        exact ⟨_, hacc.2.1 hbuild hv⟩
      · cases hb
    · split_ifs at hb with hbuild
      · rw [List.mem_singleton.1 hb] at hv
        exact ⟨_, hacc.2.2 hbuild hv⟩
      · cases hb

/-- Witness of C10 in a build with the GDBSIM back-end only: a missing
`--core`, the core `ri5cy`, the trace flag `foo` ahead of a `--help`, and two
positional arguments each give exit code 1 with nothing constructed; the core
names `gdbsim`, `GdbSim` and `GDBSIM` each give the GDBSIM target. -/
theorem main_rejects_witness :
    ((main gdbsimEnv [('q', "")] ["1234"]).exitCode ≠ 0 ∧
      (main gdbsimEnv [('q', "")] ["1234"]).events = []) ∧
    ((main gdbsimEnv [('c', "gdbsim"), ('c', "ri5cy")] ["1234"]).exitCode ≠ 0 ∧
      (main gdbsimEnv [('c', "gdbsim"), ('c', "ri5cy")] ["1234"]).events = []) ∧
    ((main gdbsimEnv [('c', "gdbsim"), ('t', "foo"), ('h', "")] ["1234"]).exitCode ≠ 0 ∧
      (main gdbsimEnv [('c', "gdbsim"), ('t', "foo"), ('h', "")] ["1234"]).events = []) ∧
    ((main gdbsimEnv [('c', "gdbsim")] ["1234", "5678"]).exitCode ≠ 0 ∧
      (main gdbsimEnv [('c', "gdbsim")] ["1234", "5678"]).events = []) ∧
    createCpu gdbsimEnv.build "gdbsim" = some ITarget.GdbSim ∧
    createCpu gdbsimEnv.build "GdbSim" = some ITarget.GdbSim ∧
    createCpu gdbsimEnv.build "GDBSIM" = some ITarget.GdbSim :=
  ⟨(main_rejects gdbsimEnv [('q', "")] ["1234"]).1 (by decide) (by decide),
   (main_rejects gdbsimEnv [('c', "gdbsim"), ('c', "ri5cy")] ["1234"]).2.1 "ri5cy"
     (by decide) (by decide) (by decide),
   (main_rejects gdbsimEnv [('c', "gdbsim"), ('t', "foo"), ('h', "")] ["1234"]).2.2.1
     [('c', "gdbsim")] [('h', "")] "foo" rfl (by decide) (by decide),
   (main_rejects gdbsimEnv [('c', "gdbsim")] ["1234", "5678"]).2.2.2.1
     (by decide) (by decide) (by decide),
   by decide, by decide, by decide⟩

/-! ## Register access -/

theorem toSizeT_neg_one (T : Target) : toSizeT T (-1) = 2 ^ T.sizeBits - 1 := by
  unfold toSizeT
  have hpos : (0 : Int) < 2 ^ T.sizeBits := by positivity
  have h : (-1 : Int) % 2 ^ T.sizeBits = 2 ^ T.sizeBits - 1 := by
    have e : (-1 : Int) + 1 * 2 ^ T.sizeBits = 2 ^ T.sizeBits - 1 := by ring
    have k : ((-1 : Int) + 1 * 2 ^ T.sizeBits) % 2 ^ T.sizeBits = (-1) % 2 ^ T.sizeBits :=
      Int.add_mul_emod_self
    rw [← k, e]
    apply Int.emod_eq_of_lt <;> omega
  rw [h]
  have hn : ((2 ^ T.sizeBits - 1 : Nat) : Int) = 2 ^ T.sizeBits - 1 := by
    have : 1 ≤ 2 ^ T.sizeBits := Nat.one_le_two_pow
    push_cast [Nat.cast_sub this]
    rfl
  rw [← hn]
  exact Int.toNat_ofNat _

/-- C12: `readRegister` returns the count the simulator's register fetch
reports (as a `std::size_t`); when that count is not the register width the
value is 0, in particular for the counts 0 and `(size_t) -1`; when it is the
register width the value is the one the fetch left in the buffer; one fetch is
made and nothing else. -/
theorem readRegister_result {σ : Type} (T : Target) (sim : SimLib σ) (reg : Int)
    (self : GdbSimImpl σ) (res : Int) (buf : Nat) (sd : σ)
    (hfetch : sim.sim_fetch_register self.gdbsim_desc reg T.regBytes = (res, buf, sd)) :
    (readRegister T sim reg self).1.1 = toSizeT T res ∧
    (toSizeT T res ≠ T.regBytes → (readRegister T sim reg self).1.2 = 0) ∧
    (toSizeT T res = T.regBytes →
      (readRegister T sim reg self).1.2 = buf % 2 ^ (8 * T.regBytes)) ∧
    (toSizeT T res = T.regBytes → buf < 2 ^ (8 * T.regBytes) →
      (readRegister T sim reg self).1.2 = buf) ∧
    (res = 0 → 0 < T.regBytes → (readRegister T sim reg self).1 = (0, 0)) ∧
    (res = -1 → T.regBytes + 1 < 2 ^ T.sizeBits →
      (readRegister T sim reg self).1 = (2 ^ T.sizeBits - 1, 0)) ∧
    (readRegister T sim reg self).2
      = { self with gdbsim_desc := sd
                    calls := self.calls ++ [SimCall.fetch_register reg T.regBytes] } := by
  have hne : toSizeT T res ≠ T.regBytes →
      readRegister T sim reg self
        = ((toSizeT T res, 0),
            { self with gdbsim_desc := sd
                        calls := self.calls ++ [SimCall.fetch_register reg T.regBytes] }) := by
    intro h
    unfold readRegister
    rw [hfetch]
    dsimp only
    rw [if_pos h]
  have heq : toSizeT T res = T.regBytes →
      readRegister T sim reg self
        = ((toSizeT T res, buf % 2 ^ (8 * T.regBytes)),
            { self with gdbsim_desc := sd
                        calls := self.calls ++ [SimCall.fetch_register reg T.regBytes] }) := by
    intro h
    unfold readRegister
    rw [hfetch]
    dsimp only
    rw [if_neg (fun hc => hc h)]
  refine ⟨?_, ?_, ?_, ?_, ?_, ?_, ?_⟩
  · by_cases h : toSizeT T res = T.regBytes
    · rw [heq h]
    · rw [hne h]
  · intro h
    rw [hne h]
  · intro h
    rw [heq h]
  · intro h hlt
    rw [heq h]
    exact Nat.mod_eq_of_lt hlt
  · intro h0 hpos
    subst h0
    have hz : toSizeT T 0 = 0 := by simp [toSizeT]
    have h : toSizeT T 0 ≠ T.regBytes := by rw [hz]; omega
    rw [hne h, hz]
  · intro h1 hlt
    subst h1
    have h : toSizeT T (-1) ≠ T.regBytes := by rw [toSizeT_neg_one]; omega
    rw [hne h, toSizeT_neg_one]
  · by_cases h : toSizeT T res = T.regBytes
    · rw [heq h]
    · rw [hne h]

/-- Witness of C12 on the small simulator: register 32 (the program counter,
holding 0x1234) reads as 4 bytes with its value, and register 5, which the
simulator does not know, reads as 0 bytes with the value 0. -/
theorem readRegister_result_witness :
    (readRegister rv32 toySim 32 (toyTarget 0x1234 [] sim_stop.sim_stopped 5 none)).1
      = (4, 0x1234) ∧
    (readRegister rv32 toySim 5 (toyTarget 0x1234 [] sim_stop.sim_stopped 5 none)).1
      = (0, 0) := by
  have h1 := readRegister_result rv32 toySim 32
    (toyTarget 0x1234 [] sim_stop.sim_stopped 5 none) 4 0x1234
    (toyTarget 0x1234 [] sim_stop.sim_stopped 5 none).gdbsim_desc (by rfl)
  have h2 := readRegister_result rv32 toySim 5
    (toyTarget 0x1234 [] sim_stop.sim_stopped 5 none) 0 0
    (toyTarget 0x1234 [] sim_stop.sim_stopped 5 none).gdbsim_desc (by rfl)
  refine ⟨?_, h2.2.2.2.2.1 rfl (by decide)⟩
  exact Prod.ext h1.1 (h1.2.2.2.1 (by rfl) (by decide))

/-- C13: `writeRegister` returns the register width for every register number
and value, whatever the simulator's register store reports: the value returned
after a store that reports failure (a negative result) is the value returned
after one that reports success. -/
theorem writeRegister_result {σ : Type} (T : Target) (sim : SimLib σ) (reg : Int)
    (value : Nat) (self : GdbSimImpl σ) :
    (writeRegister T sim reg value self).1 = T.regBytes ∧
    (∀ (τ : Type) (sim' : SimLib τ) (reg' : Int) (value' : Nat) (self' : GdbSimImpl τ),
      (sim.sim_store_register self.gdbsim_desc reg value T.regBytes).1 < 0 →
      0 ≤ (sim'.sim_store_register self'.gdbsim_desc reg' value' T.regBytes).1 →
      (writeRegister T sim reg value self).1 = (writeRegister T sim' reg' value' self').1) ∧
    (writeRegister T sim reg value self).2
      = { self with
            gdbsim_desc := (sim.sim_store_register self.gdbsim_desc reg value T.regBytes).2
            calls := self.calls ++ [SimCall.store_register reg value T.regBytes] } :=
  ⟨rfl, fun _ _ _ _ _ _ _ => rfl, rfl⟩

/-- Witness of C13 on the small simulator: the store to register 5 fails (the
simulator reports -1), the store to register 32 succeeds, and both calls
return 4. -/
theorem writeRegister_result_witness :
    (toySim.sim_store_register
      (toyTarget 0 [] sim_stop.sim_stopped 5 none).gdbsim_desc 5 7 4).1 = -1 ∧
    (writeRegister rv32 toySim 5 7 (toyTarget 0 [] sim_stop.sim_stopped 5 none)).1 = 4 ∧
    (writeRegister rv32 toySim 5 7 (toyTarget 0 [] sim_stop.sim_stopped 5 none)).1
      = (writeRegister rv32 toySim 32 7 (toyTarget 0 [] sim_stop.sim_stopped 5 none)).1 :=
  ⟨by rfl,
   (writeRegister_result rv32 toySim 5 7 (toyTarget 0 [] sim_stop.sim_stopped 5 none)).1,
   (writeRegister_result rv32 toySim 5 7 (toyTarget 0 [] sim_stop.sim_stopped 5 none)).2.1
     ToySim toySim 32 7 (toyTarget 0 [] sim_stop.sim_stopped 5 none) (by decide) (by decide)⟩

/-! ## Reset and construction -/

/-- C14: `reset`, for `WARM` as for `COLD`, calls the callback table's
`shutdown` if and only if `mHaveReset` is already set, then initialises a fresh
copy of `default_callback`, opens the simulator in debug mode and creates the
inferior, in this order; `mHaveReset` is set afterwards; it returns `SUCCESS`
when the inferior creation gives `SIM_RC_OK`, returns no other value (it aborts
otherwise), and does the same for both reset types.  The reset the constructor
runs makes no `shutdown` call and does not depend on what the table held. -/
theorem reset_effects {σ κ : Type} (lib : ResetLib σ κ) (type : ResetType)
    (self : GdbSimImpl σ) (gdb_callback : κ) :
    (reset lib type self gdb_callback).2.1.calls
      = self.calls ++ (if self.mHaveReset = true then [SimCall.callback_shutdown] else []) ++
          [SimCall.callback_init,
           SimCall.sim_open SIM_OPEN_KIND.SIM_OPEN_DEBUG ["gdbsim"],
           SimCall.sim_create_inferior ["gdbsim"]] ∧
    (reset lib type self gdb_callback).2.1.mHaveReset = true ∧
    (reset lib type self gdb_callback).2.1.mServer = self.mServer ∧
    ((reset lib type self gdb_callback).2.1.gdbsim_desc,
        (reset lib type self gdb_callback).2.2)
      = (freshStart lib
          (if self.mHaveReset = true then (lib.shutdown self.gdbsim_desc gdb_callback).1
           else self.gdbsim_desc)).2 ∧
    ((freshStart lib
          (if self.mHaveReset = true then (lib.shutdown self.gdbsim_desc gdb_callback).1
           else self.gdbsim_desc)).1 = SIM_RC.SIM_RC_OK →
      (reset lib type self gdb_callback).1 = Outcome.returned ResumeRes.SUCCESS) ∧
    ((freshStart lib
          (if self.mHaveReset = true then (lib.shutdown self.gdbsim_desc gdb_callback).1
           else self.gdbsim_desc)).1 ≠ SIM_RC.SIM_RC_OK →
      (reset lib type self gdb_callback).1 = Outcome.aborted) ∧
    (∀ res, (reset lib type self gdb_callback).1 = Outcome.returned res →
      res = ResumeRes.SUCCESS) ∧
    reset lib ResetType.WARM self gdb_callback = reset lib ResetType.COLD self gdb_callback ∧
    (∀ (sd : σ) (server : Option GdbServer) (table : κ),
      (GdbSimImpl.new lib sd server gdb_callback).2.1.calls
        = [SimCall.callback_init,
           SimCall.sim_open SIM_OPEN_KIND.SIM_OPEN_DEBUG ["gdbsim"],
           SimCall.sim_create_inferior ["gdbsim"]] ∧
      GdbSimImpl.new lib sd server gdb_callback = GdbSimImpl.new lib sd server table) := by
  have key : ∀ (ty : ResetType) (s : GdbSimImpl σ) (cb : κ), reset lib ty s cb
      = (if (freshStart lib
            (if s.mHaveReset = true then (lib.shutdown s.gdbsim_desc cb).1
             else s.gdbsim_desc)).1 ≠ SIM_RC.SIM_RC_OK
          then Outcome.aborted else Outcome.returned ResumeRes.SUCCESS,
         { mHaveReset := true
           mServer := s.mServer
           gdbsim_desc := (freshStart lib
            (if s.mHaveReset = true then (lib.shutdown s.gdbsim_desc cb).1
             else s.gdbsim_desc)).2.1
           calls := s.calls ++
            (if s.mHaveReset = true then [SimCall.callback_shutdown] else []) ++
            [SimCall.callback_init,
             SimCall.sim_open SIM_OPEN_KIND.SIM_OPEN_DEBUG ["gdbsim"],
             SimCall.sim_create_inferior ["gdbsim"]] },
         (freshStart lib
            (if s.mHaveReset = true then (lib.shutdown s.gdbsim_desc cb).1
             else s.gdbsim_desc)).2.2) := by
    intro ty s cb
    obtain ⟨mr, srv, sd, calls⟩ := s
    unfold reset freshStart
    cases mr
    · simp only [Bool.false_eq_true, if_false, List.append_nil]
      split_ifs <;> rfl
    · simp only [if_true]
      split_ifs <;> rfl
  refine ⟨by rw [key], by rw [key], by rw [key], by rw [key], ?_, ?_, ?_, ?_, ?_⟩
  · intro h
    rw [key, if_neg (fun hc => hc h)]
  · intro h
    rw [key, if_pos h]
  · intro res h
    rw [key] at h
    by_cases hc : (freshStart lib
        (if self.mHaveReset = true then (lib.shutdown self.gdbsim_desc gdb_callback).1
         else self.gdbsim_desc)).1 ≠ SIM_RC.SIM_RC_OK
    · rw [if_pos hc] at h
      cases h
    · rw [if_neg hc] at h
      exact (Outcome.returned.inj h).symm
  · rw [key, key]
  · intro sd server table
    unfold GdbSimImpl.new
    rw [key, key]
    exact ⟨rfl, rfl⟩

/-- Witness of C14 on the small simulator: the constructor's reset makes no
`shutdown` call and returns `SUCCESS`; the warm reset that follows starts with
one; and when the inferior creation fails nothing is returned. -/
theorem reset_effects_witness :
    (GdbSimImpl.new (toyReset SIM_RC.SIM_RC_OK)
        { pc := 8, mem := [], stop := sim_stop.sim_stopped, signo := 5 } none 77).1
      = Outcome.returned ResumeRes.SUCCESS ∧
    (reset (toyReset SIM_RC.SIM_RC_OK) ResetType.WARM
        (GdbSimImpl.new (toyReset SIM_RC.SIM_RC_OK)
          { pc := 8, mem := [], stop := sim_stop.sim_stopped, signo := 5 } none 77).2.1
        1).2.1.calls
      = [SimCall.callback_init,
         SimCall.sim_open SIM_OPEN_KIND.SIM_OPEN_DEBUG ["gdbsim"],
         SimCall.sim_create_inferior ["gdbsim"],
         SimCall.callback_shutdown,
         SimCall.callback_init,
         SimCall.sim_open SIM_OPEN_KIND.SIM_OPEN_DEBUG ["gdbsim"],
         SimCall.sim_create_inferior ["gdbsim"]] ∧
    (GdbSimImpl.new (toyReset SIM_RC.SIM_RC_FAIL)
        { pc := 8, mem := [], stop := sim_stop.sim_stopped, signo := 5 } none 77).1
      = Outcome.aborted := by
  refine ⟨?_, ?_, ?_⟩
  · exact (reset_effects (toyReset SIM_RC.SIM_RC_OK) ResetType.COLD
      { mHaveReset := false, mServer := none,
        gdbsim_desc := { pc := 8, mem := [], stop := sim_stop.sim_stopped, signo := 5 },
        calls := [] } 77).2.2.2.2.1 (by rfl)
  · rw [(reset_effects (toyReset SIM_RC.SIM_RC_OK) ResetType.WARM
      (GdbSimImpl.new (toyReset SIM_RC.SIM_RC_OK)
        { pc := 8, mem := [], stop := sim_stop.sim_stopped, signo := 5 } none 77).2.1 1).1]
    rfl
  · exact (reset_effects (toyReset SIM_RC.SIM_RC_FAIL) ResetType.COLD
      { mHaveReset := false, mServer := none,
        gdbsim_desc := { pc := 8, mem := [], stop := sim_stop.sim_stopped, signo := 5 },
        calls := [] } 77).2.2.2.2.2.1 (by decide)

/-! ## The simulated-time callback -/

/-- Counterexample to C11 as stated: after a complete run of `main` (core
`gdbsim`, port 1234) the target has been deleted and `globalCpu` is not clear:
it still designates the deleted target, so `sc_time_stamp` would call that
target's `timeStamp ()` (which aborts for this back-end) and not return 0.0. -/
theorem globalCpu_not_cleared :
    MainEvent.deleteGlobalCpu ∈ (main gdbsimEnv [('c', "gdbsim")] ["1234"]).events ∧
    (main gdbsimEnv [('c', "gdbsim")] ["1234"]).globalCpu = some ITarget.GdbSim ∧
    (main gdbsimEnv [('c', "gdbsim")] ["1234"]).globalCpu ≠ none ∧
    (sc_time_stamp (fun t : ITarget => (Outcome.aborted, t))
        (main gdbsimEnv [('c', "gdbsim")] ["1234"]).globalCpu).1
      ≠ Outcome.returned 0.0 := by
  refine ⟨by decide, by decide, by decide, ?_⟩
  have h : (sc_time_stamp (fun t : ITarget => (Outcome.aborted, t))
      (main gdbsimEnv [('c', "gdbsim")] ["1234"]).globalCpu).1 = Outcome.aborted := by rfl
  rw [h]
  intro hc
  cases hc

/-- C11 (amended): `sc_time_stamp` returns 0.0 when `globalCpu` is clear and
otherwise exactly what the designated target's `timeStamp ()` returns; the
reference is clear as long as `main` has created no target, and once `main`
has created one it designates that target to the end: the teardown deletes the
target and leaves the reference as it is. -/
theorem sc_time_stamp_globalCpu {τ : Type} (timeStamp : τ → Outcome Float × τ)
    (env : MainEnv) (opts : List GetoptReturn) (positional : List String) :
    sc_time_stamp timeStamp none = (Outcome.returned 0.0, none) ∧
    (∀ cpu : τ, sc_time_stamp timeStamp (some cpu)
      = ((timeStamp cpu).1, some (timeStamp cpu).2)) ∧
    ((∀ cpu, MainEvent.newCpu cpu ∉ (main env opts positional).events) →
      (main env opts positional).globalCpu = none) ∧
    (∀ cpu, MainEvent.newCpu cpu ∈ (main env opts positional).events →
      MainEvent.deleteGlobalCpu ∈ (main env opts positional).events ∧
      (main env opts positional).globalCpu = some cpu) := by
  refine ⟨rfl, fun _ => rfl, ?_, ?_⟩
  · intro h
    unfold main at h ⊢
    cases hloop : optionLoop env.isFlag opts
        { coreName := none, from_stdin := false, traceFlags := [] } with
    | error code => rfl
    | ok l =>
      simp only [hloop] at h ⊢
      by_cases h1 : (positional.length ≠ 1 ∧ ¬ l.from_stdin = true) ∨ l.coreName = none
      · rw [if_pos h1]
      · rw [if_neg h1] at h ⊢
        cases hcn : l.coreName with
        | none => rfl
        | some coreName =>
          simp only [hcn] at h ⊢
          cases hcpu : createCpu env.build coreName with
          | none => rfl
          | some cpu1 =>
            simp only [hcpu] at h ⊢
            exfalso
            by_cases h2 : l.from_stdin = true
            · rw [if_pos h2] at h
              exact h cpu1 (List.mem_cons_self _ _)
            · rw [if_neg h2] at h
              exact h cpu1 (List.mem_cons_self _ _)
  · intro cpu h
    unfold main at h ⊢
    cases hloop : optionLoop env.isFlag opts
        { coreName := none, from_stdin := false, traceFlags := [] } with
    | error code => simp [hloop] at h
    | ok l =>
      simp only [hloop] at h ⊢
      by_cases h1 : (positional.length ≠ 1 ∧ ¬ l.from_stdin = true) ∨ l.coreName = none
      · rw [if_pos h1] at h
        simp at h
      · rw [if_neg h1] at h ⊢
        cases hcn : l.coreName with
        | none => simp [hcn] at h
        | some coreName =>
          simp only [hcn] at h ⊢
          cases hcpu : createCpu env.build coreName with
          | none => simp [hcpu] at h
          | some cpu1 =>
            simp only [hcpu] at h ⊢
            by_cases h2 : l.from_stdin = true
            · rw [if_pos h2] at h ⊢
              simp only [List.mem_cons, MainEvent.newCpu.injEq, reduceCtorEq,
                false_or, List.mem_singleton, or_false, List.not_mem_nil] at h
              subst h
              exact ⟨by simp, rfl⟩
            · rw [if_neg h2] at h ⊢
              simp only [List.mem_cons, MainEvent.newCpu.injEq, reduceCtorEq,
                false_or, List.mem_singleton, or_false, List.not_mem_nil] at h
              subst h
              exact ⟨by simp, rfl⟩

/-- Witness of C11 (amended): with no `--core` the reference stays clear, and
after a complete run with the core `gdbsim` it designates the GDBSIM target. -/
theorem sc_time_stamp_globalCpu_witness :
    (main gdbsimEnv [('s', "")] []).globalCpu = none ∧
    (MainEvent.deleteGlobalCpu ∈ (main gdbsimEnv [('c', "gdbsim"), ('s', "")] []).events ∧
      (main gdbsimEnv [('c', "gdbsim"), ('s', "")] []).globalCpu = some ITarget.GdbSim) :=
  ⟨(sc_time_stamp_globalCpu (fun t : ITarget => (Outcome.aborted, t)) gdbsimEnv
      [('s', "")] []).2.2.1
      (fun cpu h => by
        have e : (main gdbsimEnv [('s', "")] []).events = [] := by rfl
        rw [e] at h
        cases h),
   (sc_time_stamp_globalCpu (fun t : ITarget => (Outcome.aborted, t)) gdbsimEnv
      [('c', "gdbsim"), ('s', "")] []).2.2.2 ITarget.GdbSim (by decide)⟩

/-! ## The `Ri5cy` wrapper -/

/-- C15: every operation of the `Ri5cy` wrapper is one call of the operation of
the same name of its implementation object, with the same arguments: it
returns what that call returns, and the wrapper's state afterwards is the
implementation object as that call leaves it, nothing more.  `resume` without
a timeout goes to the implementation's `resume` without a timeout. -/
theorem Ri5cy_forwards {ι D : Type} (impl : Ri5cyImpl ι D) (self : Ri5cy ι)
    (step : ResumeType) (timeout : D) (type : ResetType) (reg : Int)
    (value addr buffer size : Nat) (matchType : MatchType) (cmd stream : String)
    (server : Option GdbServer) :
    Ri5cy.resume impl step self
      = ((impl.resume step self.mRi5cyImpl).1,
          { mRi5cyImpl := (impl.resume step self.mRi5cyImpl).2 }) ∧
    Ri5cy.resumeWithTimeout impl step timeout self
      = ((impl.resumeWithTimeout step timeout self.mRi5cyImpl).1,
          { mRi5cyImpl := (impl.resumeWithTimeout step timeout self.mRi5cyImpl).2 }) ∧
    Ri5cy.terminate impl self
      = ((impl.terminate self.mRi5cyImpl).1,
          { mRi5cyImpl := (impl.terminate self.mRi5cyImpl).2 }) ∧
    Ri5cy.reset impl type self
      = ((impl.reset type self.mRi5cyImpl).1,
          { mRi5cyImpl := (impl.reset type self.mRi5cyImpl).2 }) ∧
    Ri5cy.getCycleCount impl self
      = ((impl.getCycleCount self.mRi5cyImpl).1,
          { mRi5cyImpl := (impl.getCycleCount self.mRi5cyImpl).2 }) ∧
    Ri5cy.getInstrCount impl self
      = ((impl.getInstrCount self.mRi5cyImpl).1,
          { mRi5cyImpl := (impl.getInstrCount self.mRi5cyImpl).2 }) ∧
    Ri5cy.readRegister impl reg value self
      = ((impl.readRegister reg value self.mRi5cyImpl).1,
          { mRi5cyImpl := (impl.readRegister reg value self.mRi5cyImpl).2 }) ∧
    Ri5cy.writeRegister impl reg value self
      = ((impl.writeRegister reg value self.mRi5cyImpl).1,
          { mRi5cyImpl := (impl.writeRegister reg value self.mRi5cyImpl).2 }) ∧
    Ri5cy.read impl addr buffer size self
      = ((impl.read addr buffer size self.mRi5cyImpl).1,
          { mRi5cyImpl := (impl.read addr buffer size self.mRi5cyImpl).2 }) ∧
    Ri5cy.write impl addr buffer size self
      = ((impl.write addr buffer size self.mRi5cyImpl).1,
          { mRi5cyImpl := (impl.write addr buffer size self.mRi5cyImpl).2 }) ∧
    Ri5cy.insertMatchpoint impl addr matchType self
      = ((impl.insertMatchpoint addr matchType self.mRi5cyImpl).1,
          { mRi5cyImpl := (impl.insertMatchpoint addr matchType self.mRi5cyImpl).2 }) ∧
    Ri5cy.removeMatchpoint impl addr matchType self
      = ((impl.removeMatchpoint addr matchType self.mRi5cyImpl).1,
          { mRi5cyImpl := (impl.removeMatchpoint addr matchType self.mRi5cyImpl).2 }) ∧
    Ri5cy.command impl cmd stream self
      = ((impl.command cmd stream self.mRi5cyImpl).1,
          { mRi5cyImpl := (impl.command cmd stream self.mRi5cyImpl).2 }) ∧
    Ri5cy.gdbServer impl server self
      = ((impl.gdbServer server self.mRi5cyImpl).1,
          { mRi5cyImpl := (impl.gdbServer server self.mRi5cyImpl).2 }) ∧
    Ri5cy.timeStamp impl self
      = ((impl.timeStamp self.mRi5cyImpl).1,
          { mRi5cyImpl := (impl.timeStamp self.mRi5cyImpl).2 }) :=
  ⟨rfl, rfl, rfl, rfl, rfl, rfl, rfl, rfl, rfl, rfl, rfl, rfl, rfl, rfl, rfl⟩

/-- Witness of C15 on the implementation that records its calls: after one
wrapper call the record holds that one call, with the arguments given
(`resume` without a timeout is recorded as such), and the wrapper returns the
implementation's value. -/
theorem Ri5cy_forwards_witness :
    Ri5cy.resume recorder ResumeType.STEP { mRi5cyImpl := [] }
      = (Outcome.returned ResumeRes.STEPPED,
          { mRi5cyImpl := [ImplCall.resume ResumeType.STEP] }) ∧
    Ri5cy.resumeWithTimeout recorder ResumeType.CONTINUE 5 { mRi5cyImpl := [] }
      = (Outcome.returned ResumeRes.TIMEOUT,
          { mRi5cyImpl := [ImplCall.resumeWithTimeout ResumeType.CONTINUE 5] }) ∧
    Ri5cy.readRegister recorder 3 40 { mRi5cyImpl := [] }
      = (Outcome.returned (4, 41), { mRi5cyImpl := [ImplCall.readRegister 3 40] }) ∧
    Ri5cy.write recorder 0x100 0xabcd 2 { mRi5cyImpl := [ImplCall.getCycleCount] }
      = (Outcome.returned 2,
          { mRi5cyImpl := [ImplCall.getCycleCount, ImplCall.write 0x100 0xabcd 2] }) ∧
    Ri5cy.timeStamp recorder { mRi5cyImpl := [] }
      = (Outcome.aborted, { mRi5cyImpl := [ImplCall.timeStamp] }) :=
  ⟨(Ri5cy_forwards recorder { mRi5cyImpl := [] } ResumeType.STEP 0 ResetType.COLD 0 0 0 0 0 0
      "" "" none).1.trans rfl,
   (Ri5cy_forwards recorder { mRi5cyImpl := [] } ResumeType.CONTINUE 5 ResetType.COLD 0 0 0 0 0
      0 "" "" none).2.1.trans rfl,
   (Ri5cy_forwards recorder { mRi5cyImpl := [] } ResumeType.STEP 0 ResetType.COLD 3 40 0 0 0 0
      "" "" none).2.2.2.2.2.2.1.trans rfl,
   (Ri5cy_forwards recorder { mRi5cyImpl := [ImplCall.getCycleCount] } ResumeType.STEP 0
      ResetType.COLD 0 0 0x100 0xabcd 2 0 "" "" none).2.2.2.2.2.2.2.2.2.1.trans rfl,
   (Ri5cy_forwards recorder { mRi5cyImpl := [] } ResumeType.STEP 0 ResetType.COLD 0 0 0 0 0 0
      "" "" none).2.2.2.2.2.2.2.2.2.2.2.2.2.2.trans rfl⟩

end RiscvGdbServer
